import Mathlib

/-!
Verification development for the maritime situation-awareness core
(sensor fusion, anomaly detection, spoofing detection, uncertainty
modeling, confidence/alert aggregation).

The Python modules are shallowly embedded as Lean functions:

* Machine floats are modelled as `ℚ` wherever the code only does
  field arithmetic and comparisons, and as `ℝ` where it applies
  transcendental functions (`math.sin`, `math.cos`, `math.atan2`,
  `math.sqrt`).
* Sensor snapshots (Python dicts) are association lists; lookup keeps
  the first binding, matching unique-key Python dicts.  Python
  truthiness (`if raw['gps']:`) is modelled explicitly.
* The haversine distance is a parameter `hav` of the detectors: every
  theorem quantifying over it holds for the concrete float routine as
  well, and claims that pin a distance value instantiate it.
* Mutable detector state becomes explicit state records threaded
  through `detect`.
* Free-text fields (descriptions, recommended actions, timestamps used
  only for display, uuid suffixes of generated ids) are dropped; the
  stable id prefix (for example "gps_spoof") is kept so alerts remain
  distinguishable exactly as in the source.
* `datetime.now()` becomes an explicit `now : ℚ` argument (seconds).
-/

namespace Maritime

/-- Field values appearing inside a flat (innermost) Python dict:
numbers, strings, or `None`. -/
inductive FVal where
  | num : ℚ → FVal
  | str : String → FVal
  | vnone : FVal
  deriving DecidableEq, Repr

/-- A flat Python dict (target readings, radar own-ship reading). -/
abbrev FlatObj := List (String × FVal)

/-- Values of a sensor reading's fields: scalars, a nested dict
(radar `own_ship`), or a list of dicts (`targets`). -/
inductive Val where
  | num : ℚ → Val
  | str : String → Val
  | vnone : Val
  | obj : FlatObj → Val
  | objs : List FlatObj → Val
  deriving DecidableEq, Repr

/-- One sensor's reading: a Python dict from field name to value. -/
abbrev Reading := List (String × Val)

/-- A value of the top-level snapshot dict: the sensor's reading dict,
`None`, or a scalar (the code tolerates non-dict sensor values in the
quality computation). -/
inductive SVal where
  | obj : Reading → SVal
  | num : ℚ → SVal
  | str : String → SVal
  | vnone : SVal
  deriving DecidableEq, Repr

/-- A raw sensor snapshot: sensor name to sensor value. -/
abbrev Snapshot := List (String × SVal)

/-- Python truthiness of a snapshot value (`if raw_sensor_data['gps']:`). -/
def SVal.truthy : SVal → Bool
  | .obj r => r ≠ []
  | .num q => q ≠ 0
  | .str s => s ≠ ""
  | .vnone => false

/-- `'gps' in raw_sensor_data and raw_sensor_data['gps']`, returning the
reading dict when the sensor is present and truthy. -/
def getReading (raw : Snapshot) (k : String) : Option Reading :=
  match raw.lookup k with
  | some (.obj r) => if r = [] then none else some r
  | _ => none

/-- `'latitude' in gps` followed by numeric use of `gps['latitude']`. -/
def getNum (r : Reading) (k : String) : Option ℚ :=
  match r.lookup k with
  | some (.num q) => some q
  | _ => none

/-- `data.get(k, d)` on a flat dict, numeric use. -/
def getNumD (o : FlatObj) (k : String) (d : ℚ) : ℚ :=
  match o.lookup k with
  | some (.num q) => q
  | _ => d

/-- `data.get(k)` on a flat dict. -/
def getAny (o : FlatObj) (k : String) : Option FVal := o.lookup k

/-- Python `sub in s` (substring containment), on char lists. -/
def containsSub (hay needle : List Char) : Bool :=
  needle.isPrefixOf hay ||
    match hay with
    | [] => false
    | _ :: t => containsSub t needle

/-- Python `sub in s` on strings. -/
def strContains (s sub : String) : Bool := containsSub s.toList sub.toList

/-- Python `max(xs)` on a (nonempty, in the source) rational list; the
`[]` case is never reached behind the source's nonemptiness guards. -/
def listMax : List ℚ → ℚ
  | [] => 0
  | x :: xs => xs.foldl max x

/-- Bounded rolling history push: append, then evict the oldest entry
when the cap is exceeded (`list.append` + `list.pop(0)`). -/
def pushBounded {α : Type} (cap : ℕ) (l : List α) (x : α) : List α :=
  let l' := l ++ [x]
  if cap < l'.length then l'.tail else l'

/-! ## Data model (`models/data_models.py`) -/

/-- `AlertLevel` -/
inductive AlertLevel where
  | info | warning | critical | emergency
  deriving DecidableEq, Repr

/-- `AnomalyType`; `anomalyTypeValue` below gives each variant's value
string from the source enum. -/
inductive AnomalyType where
  | trajectory_deviation | speed_anomaly | sensor_mismatch
  | collision_risk | sudden_maneuver | sensor_degradation
  | data_quality_issue
  deriving DecidableEq, Repr

/-- The `.value` strings of `AnomalyType`. -/
def anomalyTypeValue : AnomalyType → String
  | .trajectory_deviation => "trajectory_deviation"
  | .speed_anomaly => "speed_anomaly"
  | .sensor_mismatch => "sensor_mismatch"
  | .collision_risk => "collision_risk"
  | .sudden_maneuver => "sudden_maneuver"
  | .sensor_degradation => "sensor_degradation"
  | .data_quality_issue => "data_quality_issue"

/-- `SpoofingType` -/
inductive SpoofingType where
  | gps_spoofing | ais_spoofing | multi_sensor_spoofing
  deriving DecidableEq, Repr

/-- `VesselState` (timestamp dropped; course/heading are real-valued
because they come out of the trigonometric angle fusion). -/
structure VesselState where
  position : ℚ × ℚ
  speed : ℚ
  course : ℝ
  heading : ℝ
  rate_of_turn : ℚ

/-- `Target` -/
structure Target where
  target_id : FVal
  position : ℚ × ℚ
  speed : ℚ
  course : ℚ
  cpa : ℚ
  tcpa : ℚ
  distance : ℚ
  vessel_type : Option FVal
  name : Option FVal

/-- Fused environment value: each raw reading passed through when
present and truthy, default visibility "good". -/
structure Environment where
  weather : Option SVal
  tide : Option SVal
  current : Option SVal
  visibility : String

/-- `FusedData` (timestamp dropped). -/
structure FusedData where
  vessel_state : VesselState
  targets : List Target
  environment : Environment
  quality_scores : List (String × ℚ)
  fusion_confidence : ℚ

/-- `Anomaly` (id kept as its stable prefix, uuid suffix and free text
dropped). -/
structure Anomaly where
  anomaly_id : String
  anomaly_type : AnomalyType
  severity : ℚ
  affected_sensors : List String
  location : Option (ℚ × ℚ)

/-- `Anomaly.to_alert_level` -/
def Anomaly.to_alert_level (a : Anomaly) : AlertLevel :=
  if 0.8 ≤ a.severity then .critical
  else if 0.5 ≤ a.severity then .warning
  else .info

/-- `SpoofingAlert` (id kept as its stable prefix). -/
structure SpoofingAlert where
  alert_id : String
  spoofing_type : SpoofingType
  confidence : ℚ
  affected_sensors : List String

/-- `SpoofingAlert.to_alert_level` -/
def SpoofingAlert.to_alert_level (s : SpoofingAlert) : AlertLevel :=
  if 0.7 ≤ s.confidence then .emergency
  else if 0.5 ≤ s.confidence then .critical
  else .warning

/-- `Uncertainty`.  `std_deviation`, `mean_value` and the interval are
real-valued (the source applies `math.sqrt`); `reliability` is built
from rational constants only. -/
structure Uncertainty where
  parameter : String
  mean_value : ℝ
  std_deviation : ℝ
  confidence_interval : ℝ × ℝ
  reliability : ℚ

/-- `Alert` (title/message/timestamp/metadata dropped). -/
structure Alert where
  alert_id : String
  level : AlertLevel
  source : String

/-! ## Sensor fusion (`modules/sensor_fusion.py`) -/

/-- `self.sensor_weights` with the `.get(sensor, 0.5)` default used by
the fusion-confidence computation. -/
def sensor_weights (s : String) : ℚ :=
  if s = "gps" then 0.95
  else if s = "ais" then 0.85
  else if s = "radar" then 0.80
  else if s = "chart" then 0.90
  else if s = "weather" then 0.75
  else if s = "engine" then 0.85
  else if s = "camera" then 0.70
  else if s = "tide" then 0.80
  else if s = "current" then 0.75
  else 0.5

/-- Fusion engine state: the retained fused-position history
(lat, lon, time), cap 50. -/
structure FusionState where
  position_history : List (ℚ × ℚ × ℚ)

def initFusionState : FusionState := ⟨[]⟩

/-- `_weighted_position_fusion` -/
def weighted_position_fusion (positions : List (ℚ × ℚ × ℚ)) : ℚ × ℚ :=
  if positions = [] then (0, 0)
  else
    let total := (positions.map (fun p => p.2.2)).sum
    ((positions.map (fun p => p.1 * p.2.2)).sum / total,
     (positions.map (fun p => p.2.1 * p.2.2)).sum / total)

/-- `_weighted_value_fusion` -/
def weighted_value_fusion (values : List (ℚ × ℚ)) (default : ℚ) : ℚ :=
  if values = [] then default
  else
    let total := (values.map (fun v => v.2)).sum
    (values.map (fun v => v.1 * v.2)).sum / total

/-- `math.radians` -/
noncomputable def radiansOf (a : ℝ) : ℝ := a * Real.pi / 180

/-- `math.degrees` -/
noncomputable def degreesOf (a : ℝ) : ℝ := a * 180 / Real.pi

/-- `math.atan2 y x`: the argument of the complex number `x + y i`
(range `(-π, π]`, `atan2 0 0 = 0`, matching the float routine on the
reals). -/
noncomputable def atan2 (y x : ℝ) : ℝ := Complex.arg ⟨x, y⟩

/-- Python float `a % 360` (result in `[0, 360)`). -/
noncomputable def mod360 (a : ℝ) : ℝ := a - 360 * ⌊a / 360⌋

/-- `_weighted_angle_fusion`: circular weighted mean, normalized to
`[0, 360)`. -/
noncomputable def weighted_angle_fusion (angles : List (ℝ × ℝ)) (default : ℝ) : ℝ :=
  if angles = [] then default
  else
    let sin_sum := (angles.map (fun p => Real.sin (radiansOf p.1) * p.2)).sum
    let cos_sum := (angles.map (fun p => Real.cos (radiansOf p.1) * p.2)).sum
    mod360 (degreesOf (atan2 sin_sum cos_sum))

/-- `_is_position_outlier` (the haversine is the parameter `hav`). -/
def is_position_outlier (hav : ℚ → ℚ → ℚ → ℚ → ℚ) (st : FusionState)
    (lat lon : ℚ) (now : ℚ) : Bool :=
  match st.position_history.getLast? with
  | none => false
  | some (last_lat, last_lon, last_time) =>
    let distance := hav lat lon last_lat last_lon
    let time_diff := now - last_time
    if 0 < time_diff then
      decide (25.7 * time_diff * 2 < distance)
    else false

/-- `_is_speed_outlier` -/
def is_speed_outlier (speed : ℚ) : Bool := speed < 0 || 50 < speed

/-- `_update_position_history` (cap `self.max_history = 50`). -/
def update_position_history (st : FusionState) (lat lon now : ℚ) : FusionState :=
  ⟨pushBounded 50 st.position_history (lat, lon, now)⟩

/-- The `(lat, lon, weight)` candidates gathered by
`_fuse_vessel_state` from GPS, AIS and radar own-ship. -/
def positionCandidates (hav : ℚ → ℚ → ℚ → ℚ → ℚ) (st : FusionState)
    (raw : Snapshot) (now : ℚ) : List (ℚ × ℚ × ℚ) :=
  (match getReading raw "gps" with
   | some gps =>
     match getNum gps "latitude", getNum gps "longitude" with
     | some lat, some lon =>
       if is_position_outlier hav st lat lon now then [] else [(lat, lon, 0.95)]
     | _, _ => []
   | none => []) ++
  (match getReading raw "ais" with
   | some ais =>
     match getNum ais "latitude", getNum ais "longitude" with
     | some lat, some lon =>
       if is_position_outlier hav st lat lon now then [] else [(lat, lon, 0.85)]
     | _, _ => []
   | none => []) ++
  (match getReading raw "radar" with
   | some radar =>
     match radar.lookup "own_ship" with
     | some (.obj own) =>
       match own.lookup "latitude", own.lookup "longitude" with
       | some (.num lat), some (.num lon) =>
         if is_position_outlier hav st lat lon now then []
         else [(lat, lon, 0.80 * 0.8)]
       | _, _ => []
     | _ => []
   | none => [])

/-- The `(speed, weight)` candidates gathered by `_fuse_vessel_state`. -/
def speedCandidates (raw : Snapshot) : List (ℚ × ℚ) :=
  (match getReading raw "gps" with
   | some gps =>
     match getNum gps "speed" with
     | some s => if is_speed_outlier s then [] else [(s, 0.95)]
     | none => []
   | none => []) ++
  (match getReading raw "ais" with
   | some ais =>
     match getNum ais "speed" with
     | some s => if is_speed_outlier s then [] else [(s, 0.85)]
     | none => []
   | none => [])

/-- The `(course, weight)` candidates gathered by `_fuse_vessel_state`. -/
def courseCandidates (raw : Snapshot) : List (ℚ × ℚ) :=
  (match getReading raw "gps" with
   | some gps =>
     match getNum gps "course" with
     | some c => [(c, 0.95)]
     | none => []
   | none => []) ++
  (match getReading raw "ais" with
   | some ais =>
     match getNum ais "course" with
     | some c => [(c, 0.85)]
     | none => []
   | none => [])

/-- The `(heading, weight)` candidates gathered by `_fuse_vessel_state`
(AIS only). -/
def headingCandidates (raw : Snapshot) : List (ℚ × ℚ) :=
  match getReading raw "ais" with
  | some ais =>
    match getNum ais "heading" with
    | some h => [(h, 0.85)]
    | none => []
  | none => []

/-- The `(rot, weight)` candidates gathered by `_fuse_vessel_state`
(AIS only). -/
def rotCandidates (raw : Snapshot) : List (ℚ × ℚ) :=
  match getReading raw "ais" with
  | some ais =>
    match getNum ais "rot" with
    | some r => [(r, 0.85)]
    | none => []
  | none => []

/-- `_fuse_vessel_state`, returning the fresh `VesselState` and the
updated position history. -/
noncomputable def fuse_vessel_state (hav : ℚ → ℚ → ℚ → ℚ → ℚ)
    (st : FusionState) (raw : Snapshot) (now : ℚ) :
    VesselState × FusionState :=
  let positions := positionCandidates hav st raw now
  let (fused_lat, fused_lon) := weighted_position_fusion positions
  let fused_speed := weighted_value_fusion (speedCandidates raw) 0
  let fused_course :=
    weighted_angle_fusion ((courseCandidates raw).map
      (fun p => ((p.1 : ℝ), (p.2 : ℝ)))) 0
  let fused_heading :=
    weighted_angle_fusion ((headingCandidates raw).map
      (fun p => ((p.1 : ℝ), (p.2 : ℝ)))) fused_course
  let fused_rot := weighted_value_fusion (rotCandidates raw) 0
  (⟨(fused_lat, fused_lon), fused_speed, fused_course, fused_heading, fused_rot⟩,
   update_position_history st fused_lat fused_lon now)

/-- `'ais' in sensor_data and 'targets' in sensor_data['ais']`,
yielding the list of target dicts (no truthiness check in the source
here). -/
def targetsOf (raw : Snapshot) (sensor : String) : List FlatObj :=
  match raw.lookup sensor with
  | some (.obj r) =>
    match r.lookup "targets" with
    | some (.objs ts) => ts
    | _ => []
  | _ => []

/-- An entry of `_fuse_targets`' working dict. -/
structure TargetInfo where
  source : String
  data : FlatObj
  radar_data : Option FlatObj

/-- Python dict assignment `d[k] = v`: replace in place if the key
exists, else append. -/
def dictInsert {β : Type} (d : List (FVal × β)) (k : FVal) (v : β) :
    List (FVal × β) :=
  match d with
  | [] => [(k, v)]
  | (k', v') :: rest =>
    if k' = k then (k, v) :: rest else (k', v') :: dictInsert rest k v

/-- Update the entry at an existing key (used for
`target_dict[target_id]['radar_data'] = radar_target`). -/
def dictModify {β : Type} (d : List (FVal × β)) (k : FVal) (f : β → β) :
    List (FVal × β) :=
  match d with
  | [] => []
  | (k', v') :: rest =>
    if k' = k then (k', f v') :: rest else (k', v') :: dictModify rest k f

/-- `_correlate_target`: first AIS entry within 500 m of the radar
target. -/
def correlate_target (hav : ℚ → ℚ → ℚ → ℚ → ℚ) (radar_target : FlatObj)
    (d : List (FVal × TargetInfo)) : Option FVal :=
  match getAny radar_target "latitude", getAny radar_target "longitude" with
  | some (.num rlat), some (.num rlon) =>
    (d.find? (fun e =>
        e.2.source = "ais" &&
        (match getAny e.2.data "latitude", getAny e.2.data "longitude" with
         | some (.num alat), some (.num alon) =>
           decide (hav rlat rlon alat alon < 500)
         | _, _ => false))).map (fun e => e.1)
  | _, _ => none

/-- The AIS phase of `_fuse_targets`: key each AIS target by its
reported `mmsi` (the fallback key interpolates `len(targets)`, which is
still the empty output list at this point, hence always `"ais_0"`). -/
def aisTargetDict (raw : Snapshot) : List (FVal × TargetInfo) :=
  (targetsOf raw "ais").foldl
    (fun d t =>
      let key := match getAny t "mmsi" with
        | some v => v
        | none => FVal.str "ais_0"
      dictInsert d key ⟨"ais", t, none⟩)
    []

/-- The radar phase of `_fuse_targets`: correlate each radar target to
an AIS entry within 500 m, else create a fresh `radar_<n>` entry. -/
def addRadarTargets (hav : ℚ → ℚ → ℚ → ℚ → ℚ) (raw : Snapshot)
    (d0 : List (FVal × TargetInfo)) : List (FVal × TargetInfo) :=
  (targetsOf raw "radar").foldl
    (fun d t =>
      match correlate_target hav t d with
      | some key => dictModify d key (fun info => { info with radar_data := some t })
      | none =>
        dictInsert d (FVal.str ("radar_" ++ toString d.length)) ⟨"radar", t, none⟩)
    d0

/-- Building one `Target` from a dict entry (correlated radar fields
are not merged; `data` stays the AIS data). -/
def buildTarget (key : FVal) (info : TargetInfo) : Target :=
  let data := info.data
  { target_id := key
    position := (getNumD data "latitude" 0, getNumD data "longitude" 0)
    speed := getNumD data "speed" 0
    course := getNumD data "course" 0
    cpa := getNumD data "cpa" 999.9
    tcpa := getNumD data "tcpa" 999.9
    distance := getNumD data "distance" 999.9
    vessel_type := getAny data "vessel_type"
    name := getAny data "name" }

/-- `_fuse_targets` -/
def fuse_targets (hav : ℚ → ℚ → ℚ → ℚ → ℚ) (raw : Snapshot) : List Target :=
  (addRadarTargets hav raw (aisTargetDict raw)).map (fun e => buildTarget e.1 e.2)

/-- `_fuse_environment` -/
def fuse_environment (raw : Snapshot) : Environment :=
  { weather := match raw.lookup "weather" with
      | some v => if v.truthy then some v else none
      | none => none
    tide := match raw.lookup "tide" with
      | some v => if v.truthy then some v else none
      | none => none
    current := match raw.lookup "current" with
      | some v => if v.truthy then some v else none
      | none => none
    visibility := "good" }

/-- `_calculate_quality_scores`: every non-`None` sensor gets a score,
`min(1, field_count/10)` for dict readings and `0.5` otherwise. -/
def calculate_quality_scores (raw : Snapshot) : List (String × ℚ) :=
  match raw with
  | [] => []
  | (k, v) :: rest =>
    match v with
    | .vnone => calculate_quality_scores rest
    | .obj r => (k, min 1 ((r.length : ℚ) / 10)) :: calculate_quality_scores rest
    | _ => (k, 0.5) :: calculate_quality_scores rest

/-- `_calculate_fusion_confidence` -/
def calculate_fusion_confidence (quality_scores : List (String × ℚ)) : ℚ :=
  if quality_scores = [] then 0
  else
    let total := (quality_scores.map (fun e => sensor_weights e.1)).sum
    let weighted := (quality_scores.map (fun e => e.2 * sensor_weights e.1)).sum
    if total = 0 then 0 else weighted / total

/-- `SensorFusionEngine.fuse` -/
noncomputable def fuse (hav : ℚ → ℚ → ℚ → ℚ → ℚ) (st : FusionState)
    (raw : Snapshot) (now : ℚ) : FusedData × FusionState :=
  let (vessel_state, st') := fuse_vessel_state hav st raw now
  let targets := fuse_targets hav raw
  let environment := fuse_environment raw
  let quality_scores := calculate_quality_scores raw
  let fusion_confidence := calculate_fusion_confidence quality_scores
  (⟨vessel_state, targets, environment, quality_scores, fusion_confidence⟩, st')

/-! ## Anomaly detector (`modules/anomaly_detector.py`) -/

/-- Detector state: rolling speed/course/position histories
(`self.max_history = 30`). -/
structure AnomState where
  speed_history : List ℚ
  course_history : List ℝ
  position_history : List (ℚ × ℚ × ℚ)

def initAnomState : AnomState := ⟨[], [], []⟩

/-- `_update_history` -/
def update_history (st : AnomState) (vs : VesselState) (now : ℚ) : AnomState :=
  ⟨pushBounded 30 st.speed_history vs.speed,
   pushBounded 30 st.course_history vs.course,
   pushBounded 30 st.position_history (vs.position.1, vs.position.2, now)⟩

/-- `_predict_position` (only called with history length ≥ 3). -/
def predict_position (history : List (ℚ × ℚ × ℚ)) : ℚ × ℚ :=
  match history.reverse with
  | [] => (0, 0)
  | [(lat, lon, _)] => (lat, lon)
  | (lat2, lon2, t2) :: (lat1, lon1, t1) :: _ =>
    let time_diff := t2 - t1
    if time_diff = 0 then (lat2, lon2)
    else
      (lat2 + (lat2 - lat1) / time_diff * 30,
       lon2 + (lon2 - lon1) / time_diff * 30)

/-- `_detect_trajectory_deviation` (run after `_update_history`). -/
def detect_trajectory_deviation (hav : ℚ → ℚ → ℚ → ℚ → ℚ) (st : AnomState)
    (vs : VesselState) : List Anomaly :=
  if st.position_history.length < 3 then []
  else
    let (elat, elon) := predict_position st.position_history
    let deviation := hav elat elon vs.position.1 vs.position.2
    if 500 < deviation then
      [⟨"traj_dev", .trajectory_deviation, min 1 (deviation / 2000),
        ["gps", "ais"], some vs.position⟩]
    else []

/-- `_detect_speed_anomaly` (run after `_update_history`). -/
def detect_speed_anomaly (st : AnomState) (vs : VesselState) : List Anomaly :=
  if st.speed_history.length < 2 then []
  else
    let avg := st.speed_history.sum / st.speed_history.length
    let dev := |vs.speed - avg|
    if 5 < dev then
      [⟨"speed_anom", .speed_anomaly, min 1 (dev / 20),
        ["gps", "engine"], some vs.position⟩]
    else []

/-- `_detect_sensor_mismatch`: GPS vs AIS position distance over 200 m
(note the source checks only key membership here, not truthiness). -/
def detect_sensor_mismatch (hav : ℚ → ℚ → ℚ → ℚ → ℚ) (raw : Snapshot) :
    List Anomaly :=
  match raw.lookup "gps", raw.lookup "ais" with
  | some (.obj gps), some (.obj ais) =>
    match getNum gps "latitude", getNum gps "longitude",
          getNum ais "latitude", getNum ais "longitude" with
    | some glat, some glon, some alat, some alon =>
      let distance := hav glat glon alat alon
      if 200 < distance then
        [⟨"sensor_mismatch", .sensor_mismatch, min 1 (distance / 1000),
          ["gps", "ais"], some (glat, glon)⟩]
      else []
    | _, _, _, _ => []
  | _, _ => []

/-- `_detect_collision_risk` -/
def detect_collision_risk (targets : List Target) : List Anomaly :=
  targets.foldr
    (fun t acc =>
      (if t.cpa < 2 ∧ t.tcpa < 10 ∧ 0 < t.tcpa then
        [⟨"collision", .collision_risk,
          ((1 - t.cpa / 2) + (1 - t.tcpa / 10)) / 2,
          ["ais", "radar"], some t.position⟩]
      else []) ++ acc)
    []

/-- `_detect_sudden_maneuver` -/
def detect_sudden_maneuver (vs : VesselState) : List Anomaly :=
  if 15 < |vs.rate_of_turn| then
    [⟨"maneuver", .sudden_maneuver, min 1 (|vs.rate_of_turn| / 30),
      ["ais", "gps"], some vs.position⟩]
  else []

/-- `_detect_sensor_degradation`: one fixed-severity anomaly per
missing or falsey critical sensor. -/
def detect_sensor_degradation (raw : Snapshot) : List Anomaly :=
  (["gps", "ais", "radar"]).foldr
    (fun s acc =>
      (match raw.lookup s with
       | some v => if v.truthy then [] else
           [⟨"sensor_deg", .sensor_degradation, 0.8, [s], none⟩]
       | none => [⟨"sensor_deg", .sensor_degradation, 0.8, [s], none⟩]) ++ acc)
    []

/-- `AnomalyDetector.detect`: history update, then the six checks in
source order. -/
def anomaly_detect (hav : ℚ → ℚ → ℚ → ℚ → ℚ) (st : AnomState)
    (fused : FusedData) (raw : Snapshot) (now : ℚ) :
    List Anomaly × AnomState :=
  let st' := update_history st fused.vessel_state now
  (detect_trajectory_deviation hav st' fused.vessel_state ++
   detect_speed_anomaly st' fused.vessel_state ++
   detect_sensor_mismatch hav raw ++
   detect_collision_risk fused.targets ++
   detect_sudden_maneuver fused.vessel_state ++
   detect_sensor_degradation raw,
   st')

/-! ## Spoofing detector (`modules/spoofing_detector.py`) -/

/-- A summarized entry of the bounded incident log. -/
structure Incident where
  alert_count : ℕ
  alert_types : List SpoofingType
  max_confidence : ℚ

/-- Detector state: previous GPS/AIS positions, last GPS update time,
incident log (cap 100). -/
structure SpoofState where
  previous_gps_position : Option (ℚ × ℚ)
  previous_ais_position : Option (ℚ × ℚ)
  last_update_time : Option ℚ
  spoofing_incidents : List Incident

def initSpoofState : SpoofState := ⟨none, none, none, []⟩

/-- `_detect_gps_spoofing`: position-jump check, with the
impossible-speed check as its `elif`; the position tracker updates
whenever GPS coordinates are present. -/
def detect_gps_spoofing (hav : ℚ → ℚ → ℚ → ℚ → ℚ) (st : SpoofState)
    (raw : Snapshot) (now : ℚ) : List SpoofingAlert × SpoofState :=
  match getReading raw "gps" with
  | none => ([], st)
  | some gps =>
    match getNum gps "latitude", getNum gps "longitude" with
    | some lat, some lon =>
      let alerts :=
        match st.previous_gps_position, st.last_update_time with
        | some (plat, plon), some t =>
          let distance := hav plat plon lat lon
          let time_diff := now - t
          if 0 < time_diff then
            let implied_speed := distance / time_diff * 1.94384
            if 1000 < distance ∧ time_diff < 10 then
              [⟨"gps_spoof", .gps_spoofing, min 1 (distance / 5000), ["gps"]⟩]
            else if 60 < implied_speed then
              [⟨"gps_speed", .gps_spoofing, min 1 (implied_speed / 100), ["gps"]⟩]
            else []
          else []
        | _, _ => []
      (alerts, { st with previous_gps_position := some (lat, lon),
                         last_update_time := some now })
    | _, _ => ([], st)

/-- `_detect_ais_spoofing`: impossible reported speed, and AIS position
jump against the previous AIS position (tracker updates whenever AIS
coordinates are present). -/
def detect_ais_spoofing (hav : ℚ → ℚ → ℚ → ℚ → ℚ) (st : SpoofState)
    (raw : Snapshot) : List SpoofingAlert × SpoofState :=
  match getReading raw "ais" with
  | none => ([], st)
  | some ais =>
    let speed_alerts :=
      match getNum ais "speed" with
      | some s =>
        if 60 < s then [⟨"ais_spoof", .ais_spoofing, min 1 (s / 100), ["ais"]⟩]
        else []
      | none => []
    match getNum ais "latitude", getNum ais "longitude" with
    | some lat, some lon =>
      let jump_alerts :=
        match st.previous_ais_position with
        | some (plat, plon) =>
          let distance := hav plat plon lat lon
          if 1000 < distance then
            [⟨"ais_jump", .ais_spoofing, min 1 (distance / 5000), ["ais"]⟩]
          else []
        | none => []
      (speed_alerts ++ jump_alerts,
       { st with previous_ais_position := some (lat, lon) })
    | _, _ => (speed_alerts, st)

/-- The sensor positions gathered by `_detect_multi_sensor_spoofing`,
in source order gps, ais, radar own-ship. -/
def sensorPositions (raw : Snapshot) : List (String × ℚ × ℚ) :=
  (match getReading raw "gps" with
   | some gps =>
     match getNum gps "latitude", getNum gps "longitude" with
     | some lat, some lon => [("gps", lat, lon)]
     | _, _ => []
   | none => []) ++
  (match getReading raw "ais" with
   | some ais =>
     match getNum ais "latitude", getNum ais "longitude" with
     | some lat, some lon => [("ais", lat, lon)]
     | _, _ => []
   | none => []) ++
  (match getReading raw "radar" with
   | some radar =>
     match radar.lookup "own_ship" with
     | some (.obj own) =>
       match own.lookup "latitude", own.lookup "longitude" with
       | some (.num lat), some (.num lon) => [("radar", lat, lon)]
       | _, _ => []
     | _ => []
   | none => [])

/-- All index-ordered pairs of a list (the source's double loop
`i < j`). -/
def orderedPairs {α : Type} : List α → List (α × α)
  | [] => []
  | x :: xs => xs.map (fun y => (x, y)) ++ orderedPairs xs

/-- `_identify_spoofed_sensor`: default "GPS" below three sensors, else
the sensor with the largest accumulated large-mismatch distance (first
maximum in dict order). -/
def identify_spoofed_sensor (hav : ℚ → ℚ → ℚ → ℚ → ℚ)
    (positions : List (String × ℚ × ℚ)) : String :=
  if positions.length < 3 then "GPS"
  else
    let scores := (orderedPairs positions).foldl
      (fun sc pq =>
        let d := hav pq.1.2.1 pq.1.2.2 pq.2.2.1 pq.2.2.2
        if 500 < d then
          (sc.map (fun e =>
            if e.1 = pq.1.1 ∨ e.1 = pq.2.1 then (e.1, e.2 + d) else e))
        else sc)
      (positions.map (fun p => (p.1, (0 : ℚ))))
    match scores with
    | [] => "unknown"
    | s0 :: rest =>
      (rest.foldl (fun best e => if best.2 < e.2 then e else best) s0).1

/-- `_detect_multi_sensor_spoofing` (the `fused_data` argument is
unused in the source body). -/
def detect_multi_sensor_spoofing (hav : ℚ → ℚ → ℚ → ℚ → ℚ)
    (raw : Snapshot) : List SpoofingAlert :=
  let positions := sensorPositions raw
  if positions.length < 2 then []
  else
    let dists := (orderedPairs positions).map
      (fun pq => hav pq.1.2.1 pq.1.2.2 pq.2.2.1 pq.2.2.2)
    let max_mismatch := dists.foldl max 0
    if dists.any (fun d => 500 < d) then
      [⟨"multi_spoof", .multi_sensor_spoofing, min 1 (max_mismatch / 2000),
        positions.map (fun p => p.1)⟩]
    else []

/-- `_detect_time_manipulation`: a GPS timestamp off from system time
by more than 60 s (an unparseable timestamp — modelled as any non-num
field — suppresses the check). -/
def detect_time_manipulation (raw : Snapshot) (now : ℚ) :
    List SpoofingAlert :=
  match getReading raw "gps" with
  | none => []
  | some gps =>
    match gps.lookup "timestamp" with
    | some (.num t) =>
      let time_diff := |now - t|
      if 60 < time_diff then
        [⟨"time_spoof", .gps_spoofing, min 1 (time_diff / 300), ["gps"]⟩]
      else []
    | _ => []

/-- `_log_spoofing_incident` (cap 100, oldest evicted). -/
def log_spoofing_incident (st : SpoofState) (alerts : List SpoofingAlert) :
    SpoofState :=
  let incident : Incident :=
    ⟨alerts.length, alerts.map (fun a => a.spoofing_type),
     listMax (alerts.map (fun a => a.confidence))⟩
  { st with spoofing_incidents :=
      pushBounded 100 st.spoofing_incidents incident }

/-- `SpoofingDetector.detect`: the four checks in source order, then
incident logging when any alert fired. -/
def spoofing_detect (hav : ℚ → ℚ → ℚ → ℚ → ℚ) (st : SpoofState)
    (raw : Snapshot) (now : ℚ) : List SpoofingAlert × SpoofState :=
  let (gps_alerts, st1) := detect_gps_spoofing hav st raw now
  let (ais_alerts, st2) := detect_ais_spoofing hav st1 raw
  let multi_alerts := detect_multi_sensor_spoofing hav raw
  let time_alerts := detect_time_manipulation raw now
  let alerts := gps_alerts ++ ais_alerts ++ multi_alerts ++ time_alerts
  (alerts, if alerts.isEmpty then st2 else log_spoofing_incident st2 alerts)

/-! ## Uncertainty modeler (`modules/uncertainty_modeler.py`) -/

/-- `'gps' in raw_sensor_data and raw_sensor_data['gps']` as used by the
modeler's measurement gathering. -/
def sensorPresent (raw : Snapshot) (s : String) : Bool :=
  match raw.lookup s with
  | some v => v.truthy
  | none => false

/-- The `(sensor, σ)` position measurements gathered by
`_calculate_position_uncertainty` (GPS 5 m, AIS 10 m, radar 50 m). -/
def positionMeasurements (raw : Snapshot) : List (String × ℚ) :=
  (if sensorPresent raw "gps" then [("gps", 5)] else []) ++
  (if sensorPresent raw "ais" then [("ais", 10)] else []) ++
  (if sensorPresent raw "radar" then [("radar", 50)] else [])

/-- Combined standard deviation of `_calculate_position_uncertainty`
(and the speed/course variants): σ = 100 default with no sensors, the
sensor's own σ with one, inverse-variance pooling
`sqrt(1 / Σ 1/σᵢ²)` with two or more.  The default is a parameter
because it differs per parameter (100 / 2 / 10). -/
noncomputable def pooledStd (default : ℝ) (sigmas : List ℝ) : ℝ :=
  match sigmas with
  | [] => default
  | [σ] => σ
  | _ => Real.sqrt (1 / (sigmas.map (fun σ => 1 / σ ^ 2)).sum)

/-- `_calculate_position_uncertainty` -/
noncomputable def calculate_position_uncertainty (raw : Snapshot) :
    Uncertainty :=
  let measurements := positionMeasurements raw
  let std_dev := pooledStd 100 (measurements.map (fun m => ((m.2 : ℚ) : ℝ)))
  let ci_range := 1.96 * std_dev
  { parameter := "position"
    mean_value := 0
    std_deviation := std_dev
    confidence_interval := (-ci_range, ci_range)
    reliability := min 1 ((measurements.length : ℚ) / 3) * 0.9 }

/-- The speed σ measurements of `_calculate_speed_uncertainty`
(GPS 0.1 kn, AIS 0.5 kn, gathered only when the reading carries a
`speed` field). -/
def speedMeasurements (raw : Snapshot) : List ℚ :=
  (match raw.lookup "gps" with
   | some v =>
     if v.truthy then
       match v with
       | .obj r => if (r.lookup "speed").isSome then [0.1] else []
       | _ => []
     else []
   | none => []) ++
  (match raw.lookup "ais" with
   | some v =>
     if v.truthy then
       match v with
       | .obj r => if (r.lookup "speed").isSome then [0.5] else []
       | _ => []
     else []
   | none => [])

/-- The course σ measurements of `_calculate_course_uncertainty`
(GPS 2°, AIS 5°). -/
def courseMeasurements (raw : Snapshot) : List ℚ :=
  (match raw.lookup "gps" with
   | some v =>
     if v.truthy then
       match v with
       | .obj r => if (r.lookup "course").isSome then [2] else []
       | _ => []
     else []
   | none => []) ++
  (match raw.lookup "ais" with
   | some v =>
     if v.truthy then
       match v with
       | .obj r => if (r.lookup "course").isSome then [5] else []
       | _ => []
     else []
   | none => [])

/-- Reliability pattern shared by the speed and course uncertainties:
0.3 with no sensors, 0.7 with one, 0.9 with two or more. -/
def countReliability (measurements : List ℚ) : ℚ :=
  match measurements with
  | [] => 0.3
  | [_] => 0.7
  | _ => 0.9

/-- `_calculate_speed_uncertainty` -/
noncomputable def calculate_speed_uncertainty (fused : FusedData)
    (raw : Snapshot) : Uncertainty :=
  let measurements := speedMeasurements raw
  let std_dev := pooledStd 2 (measurements.map (fun q => ((q : ℚ) : ℝ)))
  let ci_range := 1.96 * std_dev
  let speed : ℝ := (fused.vessel_state.speed : ℝ)
  { parameter := "speed"
    mean_value := speed
    std_deviation := std_dev
    confidence_interval := (speed - ci_range, speed + ci_range)
    reliability := countReliability measurements }

/-- Python float `%` with a positive modulus. -/
noncomputable def realMod (a b : ℝ) : ℝ := a - b * ⌊a / b⌋

/-- `_calculate_course_uncertainty` -/
noncomputable def calculate_course_uncertainty (fused : FusedData)
    (raw : Snapshot) : Uncertainty :=
  let measurements := courseMeasurements raw
  let std_dev := pooledStd 10 (measurements.map (fun q => ((q : ℚ) : ℝ)))
  let ci_range := 1.96 * std_dev
  let course := fused.vessel_state.course
  { parameter := "course"
    mean_value := course
    std_deviation := std_dev
    confidence_interval := (realMod (course - ci_range) 360,
                            realMod (course + ci_range) 360)
    reliability := countReliability measurements }

/-- `_calculate_heading_uncertainty` -/
noncomputable def calculate_heading_uncertainty (fused : FusedData)
    (raw : Snapshot) : Uncertainty :=
  let (std_dev, rel) : ℝ × ℚ :=
    match raw.lookup "ais" with
    | some v =>
      if v.truthy then
        match v with
        | .obj r => if (r.lookup "heading").isSome then (5, 0.8) else (10, 0.5)
        | _ => (10, 0.5)
      else (15, 0.3)
    | none => (15, 0.3)
  let ci_range := 1.96 * std_dev
  let heading := fused.vessel_state.heading
  { parameter := "heading"
    mean_value := heading
    std_deviation := std_dev
    confidence_interval := (realMod (heading - ci_range) 360,
                            realMod (heading + ci_range) 360)
    reliability := rel }

/-- `_calculate_target_uncertainty` -/
noncomputable def calculate_target_uncertainty (fused : FusedData) :
    Uncertainty :=
  if fused.targets.isEmpty then
    { parameter := "targets", mean_value := 0, std_deviation := 0,
      confidence_interval := (0, 0), reliability := 1 }
  else
    let n := fused.targets.length
    { parameter := "targets"
      mean_value := (n : ℝ)
      std_deviation := Real.sqrt (n : ℝ)
      confidence_interval := ((max 0 ((n : ℤ) - 2) : ℤ), ((n : ℝ) + 2))
      reliability := 0.7 }

/-- `_calculate_environmental_uncertainty`: fixed constant triples. -/
noncomputable def environmental_uncertainties : List (String × Uncertainty) :=
  [("wind", { parameter := "wind", mean_value := 0, std_deviation := 2,
              confidence_interval := (-4, 4), reliability := 0.7 }),
   ("current", { parameter := "current", mean_value := 0, std_deviation := 0.5,
                 confidence_interval := (-1, 1), reliability := 0.6 }),
   ("tide", { parameter := "tide", mean_value := 0, std_deviation := 0.1,
              confidence_interval := (-0.2, 0.2), reliability := 0.8 })]

/-- The σ-inflation update of `_adjust_for_anomalies`. -/
def inflateUnc (impact sev : ℚ) (u : Uncertainty) : Uncertainty :=
  { u with std_deviation := u.std_deviation * (impact : ℝ)
           reliability := u.reliability * (1 - sev * 0.3) }

/-- The "sensor" branch of `_adjust_for_anomalies`: reliability cut
applied to every parameter. -/
def cutReliability (sev : ℚ) (u : Uncertainty) : Uncertainty :=
  { u with reliability := u.reliability * (1 - sev * 0.2) }

/-- One anomaly's pass of `_adjust_for_anomalies` over the parameter
map: inflate σ and cut reliability of "position"/"speed" when the
anomaly kind's value string mentions them, cut every reliability for
"sensor" kinds. -/
def adjustOne (impact : ℚ) (a : Anomaly)
    (us : List (String × Uncertainty)) : List (String × Uncertainty) :=
  let tv := anomalyTypeValue a.anomaly_type
  let us1 :=
    if strContains tv "position" then
      us.map (fun e =>
        if e.1 = "position" then (e.1, inflateUnc impact a.severity e.2) else e)
    else us
  let us2 :=
    if strContains tv "speed" then
      us1.map (fun e =>
        if e.1 = "speed" then (e.1, inflateUnc impact a.severity e.2) else e)
    else us1
  if strContains tv "sensor" then
    us2.map (fun e => (e.1, cutReliability a.severity e.2))
  else us2

/-- `_adjust_for_anomalies` -/
def adjust_for_anomalies (us : List (String × Uncertainty))
    (anomalies : List Anomaly) : List (String × Uncertainty) :=
  if anomalies.isEmpty then us
  else
    let impact := 1 + listMax (anomalies.map (fun a => a.severity))
    anomalies.foldl (fun acc a => adjustOne impact a acc) us

/-- `UncertaintyModeler.calculate`: the per-parameter estimates in
source (dict-insertion) order, then the anomaly adjustment. -/
noncomputable def uncertainty_calculate (fused : FusedData) (raw : Snapshot)
    (anomalies : List Anomaly) : List (String × Uncertainty) :=
  let base :=
    [("position", calculate_position_uncertainty raw),
     ("speed", calculate_speed_uncertainty fused raw),
     ("course", calculate_course_uncertainty fused raw),
     ("heading", calculate_heading_uncertainty fused raw),
     ("targets", calculate_target_uncertainty fused)] ++
    environmental_uncertainties
  if anomalies.isEmpty then base else adjust_for_anomalies base anomalies

/-! ## Orchestrator (`situation_awareness_layer.py`) -/

/-- `_calculate_overall_confidence` on the extracted numeric inputs:
fusion confidence, anomaly severities, spoofing confidences,
uncertainty reliabilities.  This is the whole computation; the wrapper
below extracts the lists from the structures. -/
def confidenceCore (fc : ℚ) (sevs spoofs rels : List ℚ) : ℚ :=
  let c1 :=
    if sevs.isEmpty then fc
    else fc * (1 - (listMax sevs * 0.3 + sevs.sum / sevs.length * 0.2) * 0.5)
  let c2 :=
    if spoofs.isEmpty then c1
    else c1 * (1 - listMax spoofs * 0.5)
  let c3 :=
    if rels.isEmpty then c2
    else (c2 + rels.sum / rels.length) / 2
  max 0 (min 1 c3)

/-- `_calculate_overall_confidence` -/
def calculate_overall_confidence (fused : FusedData)
    (uncertainties : List (String × Uncertainty))
    (anomalies : List Anomaly) (spoofing_alerts : List SpoofingAlert) : ℚ :=
  confidenceCore fused.fusion_confidence
    (anomalies.map (fun a => a.severity))
    (spoofing_alerts.map (fun s => s.confidence))
    (uncertainties.map (fun u => u.2.reliability))

/-- The priority table of `_generate_alerts`, including the
`.get(level, 0)` default. -/
def level_priority : AlertLevel → ℕ
  | .emergency => 4
  | .critical => 3
  | .warning => 2
  | .info => 1

/-- Stable insertion into a descending-priority sorted list: the new
element goes after existing elements of greater-or-equal priority.
Folding this right models CPython's stable `list.sort(key, reverse=True)`. -/
def insertAlert (x : Alert) : List Alert → List Alert
  | [] => [x]
  | y :: ys =>
    if level_priority x.level < level_priority y.level then
      y :: insertAlert x ys
    else x :: y :: ys

/-- Stable descending sort by level priority (the semantics of
`alerts.sort(key=lambda a: level_priority[a.level], reverse=True)`:
CPython's sort is stable and `reverse=True` keeps equal keys in
insertion order). -/
def sortAlertsDesc (l : List Alert) : List Alert :=
  l.foldr insertAlert []

/-- `_generate_alerts`: spoofing-derived alerts, then anomaly-derived
alerts, then the low-confidence warning when overall confidence < 0.5,
stably sorted by descending level priority.  (The `uncertainties`
argument is unused in the source body.) -/
def generate_alerts (spoofing_alerts : List SpoofingAlert)
    (anomalies : List Anomaly)
    (_uncertainties : List (String × Uncertainty))
    (overall_confidence : ℚ) : List Alert :=
  let base :=
    spoofing_alerts.map (fun s =>
      ⟨s.alert_id, s.to_alert_level, "spoofing_detector"⟩) ++
    anomalies.map (fun a =>
      ⟨a.anomaly_id, a.to_alert_level, "anomaly_detector"⟩) ++
    (if overall_confidence < 0.5 then
      [⟨"low_conf", AlertLevel.warning, "situation_awareness"⟩]
    else [])
  sortAlertsDesc base

/-- The layer's combined module state. -/
structure SAState where
  fusion : FusionState
  anom : AnomState
  spoof : SpoofState

def initSAState : SAState := ⟨initFusionState, initAnomState, initSpoofState⟩

/-- One processing cycle's output (`SituationAwarenessOutput`, without
the timestamp/status bookkeeping). -/
structure SAOutput where
  fused_data : FusedData
  anomalies : List Anomaly
  uncertainties : List (String × Uncertainty)
  spoofing_alerts : List SpoofingAlert
  overall_confidence : ℚ
  alerts : List Alert

/-- `SituationAwarenessLayer.process_sensor_data`: fuse, detect
spoofing, detect anomalies, model uncertainty, aggregate confidence,
generate alerts. -/
noncomputable def process_sensor_data (hav : ℚ → ℚ → ℚ → ℚ → ℚ)
    (st : SAState) (raw : Snapshot) (now : ℚ) : SAOutput × SAState :=
  let (fused, fst') := fuse hav st.fusion raw now
  let (spoofing_alerts, sst') := spoofing_detect hav st.spoof raw now
  let (anomalies, ast') := anomaly_detect hav st.anom fused raw now
  let uncertainties := uncertainty_calculate fused raw anomalies
  let overall := calculate_overall_confidence fused uncertainties anomalies
    spoofing_alerts
  let alerts := generate_alerts spoofing_alerts anomalies uncertainties overall
  (⟨fused, anomalies, uncertainties, spoofing_alerts, overall, alerts⟩,
   ⟨fst', ast', sst'⟩)

/-! ## Theorems -/

/-- Python float `%` by 360 always lands in `[0, 360)`. -/
theorem mod360_mem_Ico (a : ℝ) : mod360 a ∈ Set.Ico (0 : ℝ) 360 := by
  have h : mod360 a = 360 * Int.fract (a / 360) := by
    unfold mod360 Int.fract
    ring
  have h0 := Int.fract_nonneg (a / 360)
  have h1 := Int.fract_lt_one (a / 360)
  constructor
  · rw [h]; positivity
  · rw [h]; linarith

/-- The weighted vector sums are invariant under permutation. -/
theorem angle_sums_perm (f : (ℝ × ℝ) → ℝ) {l l' : List (ℝ × ℝ)}
    (hp : l.Perm l') : (l.map f).sum = (l'.map f).sum :=
  (hp.map f).sum_eq

/-- `atan2 0 x = 0` for `0 ≤ x` (the circular mean of aligned unit
vectors points along them). -/
theorem atan2_zero_of_nonneg {x : ℝ} (hx : 0 ≤ x) : atan2 0 x = 0 := by
  unfold atan2
  have hmk : (⟨x, 0⟩ : ℂ) = (x : ℂ) := by
    apply Complex.ext <;> simp
  rw [hmk]
  exact Complex.arg_ofReal_of_nonneg hx

/-- C3: weighted angle fusion of a non-empty list lands in `[0, 360)`,
is invariant under permutation of the input, and fusing 0° and 360°
with equal positive weights yields 0°, not 180°. -/
theorem weighted_angle_fusion_spec :
    (∀ (l : List (ℝ × ℝ)) (d : ℝ), l ≠ [] →
      weighted_angle_fusion l d ∈ Set.Ico (0 : ℝ) 360) ∧
    (∀ (l l' : List (ℝ × ℝ)) (d : ℝ), l.Perm l' →
      weighted_angle_fusion l d = weighted_angle_fusion l' d) ∧
    (∀ (w d : ℝ), 0 < w →
      weighted_angle_fusion [(0, w), (360, w)] d = 0) := by
  refine ⟨?_, ?_, ?_⟩
  · intro l d hl
    unfold weighted_angle_fusion
    rw [if_neg hl]
    exact mod360_mem_Ico _
  · intro l l' d hp
    unfold weighted_angle_fusion
    rcases eq_or_ne l [] with rfl | hne
    · have : l' = [] := hp.nil_eq.symm
      subst this; rfl
    · have hne' : l' ≠ [] := fun h => hne (hp.trans (h ▸ List.Perm.refl _)).eq_nil
      rw [if_neg hne, if_neg hne',
        angle_sums_perm (fun p => Real.sin (radiansOf p.1) * p.2) hp,
        angle_sums_perm (fun p => Real.cos (radiansOf p.1) * p.2) hp]
  · intro w d hw
    unfold weighted_angle_fusion
    rw [if_neg (by simp)]
    have h0 : radiansOf 0 = 0 := by unfold radiansOf; ring
    have h360 : radiansOf 360 = 2 * Real.pi := by unfold radiansOf; ring
    have hsin : (([((0:ℝ), w), (360, w)]).map
        (fun p => Real.sin (radiansOf p.1) * p.2)).sum = 0 := by
      simp [h0, h360, Real.sin_two_pi]
    have hcos : (([((0:ℝ), w), (360, w)]).map
        (fun p => Real.cos (radiansOf p.1) * p.2)).sum = 2 * w := by
      simp [h0, h360, Real.cos_two_pi]; ring
    rw [hsin, hcos]
    show mod360 (degreesOf (atan2 0 (2 * w))) = 0
    rw [atan2_zero_of_nonneg (by linarith)]
    unfold degreesOf mod360
    norm_num

/-- C3 witness at concrete inputs. -/
theorem weighted_angle_fusion_spec_witness :
    weighted_angle_fusion [((0 : ℝ), 1)] 0 ∈ Set.Ico (0 : ℝ) 360 ∧
    weighted_angle_fusion [((90 : ℝ), (2 : ℝ)), (0, 1)] 0 =
      weighted_angle_fusion [((0 : ℝ), (1 : ℝ)), (90, 2)] 0 ∧
    weighted_angle_fusion [((0 : ℝ), 1), (360, 1)] 0 = 0 :=
  ⟨weighted_angle_fusion_spec.1 _ 0 (by simp),
   weighted_angle_fusion_spec.2.1 _ _ 0 (List.Perm.swap _ _ _),
   weighted_angle_fusion_spec.2.2 1 0 one_pos⟩

/-- C4: weighted position fusion of a single candidate with positive
weight returns exactly that candidate's coordinates. -/
theorem weighted_position_fusion_singleton (lat lon w : ℚ) (hw : 0 < w) :
    weighted_position_fusion [(lat, lon, w)] = (lat, lon) := by
  unfold weighted_position_fusion
  rw [if_neg (by simp)]
  simp only [List.map_cons, List.map_nil, List.sum_cons, List.sum_nil]
  have hw' : w ≠ 0 := ne_of_gt hw
  rw [Prod.mk.injEq]
  constructor <;> field_simp

/-- C4 witness at a concrete candidate. -/
theorem weighted_position_fusion_singleton_witness :
    weighted_position_fusion [(3, 4, 1/2)] = (3, 4) :=
  weighted_position_fusion_singleton 3 4 (1/2) (by norm_num)

/-- C5: inverse-variance pooling — two equal-σ sensors combine to
`σ/√2`; with two or more sensors the combined σ is
`sqrt(1 / Σ 1/σᵢ²)`; a single sensor keeps its own σ; zero sensors
fall back to the default (100 m for position, as wired into
`calculate_position_uncertainty`). -/
theorem pooledStd_spec :
    (∀ σ : ℝ, 0 < σ → pooledStd 100 [σ, σ] = σ / Real.sqrt 2) ∧
    (∀ (d : ℝ) (ms : List ℝ), 2 ≤ ms.length →
      pooledStd d ms = Real.sqrt (1 / (ms.map (fun σ => 1 / σ ^ 2)).sum)) ∧
    (∀ d σ : ℝ, pooledStd d [σ] = σ) ∧
    (∀ d : ℝ, pooledStd d [] = d) ∧
    (∀ raw : Snapshot, (calculate_position_uncertainty raw).std_deviation =
      pooledStd 100 ((positionMeasurements raw).map (fun m => ((m.2 : ℚ) : ℝ)))) := by
  refine ⟨?_, ?_, fun d σ => rfl, fun d => rfl, fun raw => rfl⟩
  · intro σ hσ
    have hσ' : σ ≠ 0 := ne_of_gt hσ
    unfold pooledStd
    have hsum : (([σ, σ]).map (fun σ => 1 / σ ^ 2)).sum = 2 / σ ^ 2 := by
      simp; ring
    simp only [hsum]
    have h2 : (1 : ℝ) / (2 / σ ^ 2) = σ ^ 2 / 2 := by
      field_simp
    rw [h2, Real.sqrt_div (sq_nonneg σ) 2, Real.sqrt_sq hσ.le]
  · intro d ms hms
    match ms, hms with
    | a :: b :: rest, _ => rfl

/-- C5 witness at concrete inputs. -/
theorem pooledStd_spec_witness :
    pooledStd 100 [(3 : ℝ), 3] = 3 / Real.sqrt 2 ∧
    pooledStd 100 [(5 : ℝ), 10] =
      Real.sqrt (1 / (([(5 : ℝ), 10]).map (fun σ => 1 / σ ^ 2)).sum) ∧
    pooledStd 100 [(7 : ℝ)] = 7 ∧
    pooledStd (100 : ℝ) [] = 100 :=
  ⟨pooledStd_spec.1 3 (by norm_num),
   pooledStd_spec.2.1 100 [5, 10] (by simp),
   pooledStd_spec.2.2.1 100 7,
   pooledStd_spec.2.2.2.1 100⟩

/-- `foldl max` is monotone in both the accumulator and the list. -/
theorem foldl_max_mono {l l' : List ℚ} (h : List.Forall₂ (· ≤ ·) l l') :
    ∀ {a b : ℚ}, a ≤ b → l.foldl max a ≤ l'.foldl max b := by
  induction h with
  | nil => intro a b hab; exact hab
  | cons hxy _ ih =>
    intro a b hab
    exact ih (max_le_max hab hxy)

/-- Pointwise-larger severities give a larger `listMax`. -/
theorem listMax_mono {l l' : List ℚ} (h : List.Forall₂ (· ≤ ·) l l') :
    listMax l ≤ listMax l' := by
  cases h with
  | nil => exact le_refl _
  | cons hxy ht => exact foldl_max_mono ht hxy

/-- Pointwise-larger lists have a larger sum. -/
theorem sum_mono {l l' : List ℚ} (h : List.Forall₂ (· ≤ ·) l l') :
    l.sum ≤ l'.sum := by
  induction h with
  | nil => exact le_refl _
  | cons hxy _ ih => simpa using add_le_add hxy ih

/-- An upper bound on all elements bounds `foldl max`. -/
theorem foldl_max_le {c : ℚ} {l : List ℚ} (hl : ∀ x ∈ l, x ≤ c) :
    ∀ {a : ℚ}, a ≤ c → l.foldl max a ≤ c := by
  induction l with
  | nil => intro a ha; exact ha
  | cons x xs ih =>
    intro a ha
    exact ih (fun y hy => hl y (List.mem_cons_of_mem _ hy))
      (max_le ha (hl x (List.mem_cons_self _ _)))

/-- The accumulator bounds `foldl max` from below. -/
theorem le_foldl_max {l : List ℚ} : ∀ a : ℚ, a ≤ l.foldl max a := by
  induction l with
  | nil => intro a; exact le_refl _
  | cons x xs ih =>
    intro a
    exact le_trans (le_max_left a x) (ih _)

/-- `listMax` of a list of values in `[0, 1]` lies in `[0, 1]`. -/
theorem listMax_bounds {l : List ℚ} (hl : ∀ x ∈ l, 0 ≤ x ∧ x ≤ 1) :
    0 ≤ listMax l ∧ listMax l ≤ 1 := by
  cases l with
  | nil => exact ⟨le_refl _, by norm_num [listMax]⟩
  | cons x xs =>
    have hx := hl x (List.mem_cons_self _ _)
    refine ⟨le_trans hx.1 (le_foldl_max x), ?_⟩
    exact foldl_max_le (fun y hy => (hl y (List.mem_cons_of_mem _ hy)).2) hx.2

/-- The sum of a list of values in `[0, 1]` lies in `[0, length]`. -/
theorem sum_bounds {l : List ℚ} (hl : ∀ x ∈ l, 0 ≤ x ∧ x ≤ 1) :
    0 ≤ l.sum ∧ l.sum ≤ l.length := by
  induction l with
  | nil => simp
  | cons x xs ih =>
    have hx := hl x (List.mem_cons_self _ _)
    have ihx := ih (fun y hy => hl y (List.mem_cons_of_mem _ hy))
    constructor
    · simpa using add_nonneg hx.1 ihx.1
    · simp only [List.sum_cons, List.length_cons]
      push_cast
      linarith [hx.2, ihx.2]

/-- The anomaly factor `1 - (max*0.3 + avg*0.2)*0.5` lies in
`[3/4, 1]` for severities in `[0, 1]`. -/
theorem anomaly_factor_bounds {l : List ℚ} (hne : ¬l.isEmpty = true)
    (hl : ∀ x ∈ l, 0 ≤ x ∧ x ≤ 1) :
    3/4 ≤ 1 - (listMax l * 0.3 + l.sum / l.length * 0.2) * 0.5 ∧
    1 - (listMax l * 0.3 + l.sum / l.length * 0.2) * 0.5 ≤ 1 := by
  have hm := listMax_bounds hl
  have hs := sum_bounds hl
  have hlen : (0 : ℚ) < l.length := by
    cases l with
    | nil => simp at hne
    | cons x xs => exact_mod_cast Nat.succ_pos xs.length
  have havg0 : 0 ≤ l.sum / l.length := div_nonneg hs.1 hlen.le
  have havg1 : l.sum / l.length ≤ 1 := by
    rw [div_le_one hlen]; exact hs.2
  constructor <;> nlinarith

/-- C6: the overall-confidence computation is monotonically
non-increasing in each anomaly severity and each spoofing confidence
(holding fusion confidence and reliabilities fixed), and its result is
always clamped into `[0, 1]`. -/
theorem confidenceCore_monotone_and_bounded
    (fc : ℚ) (sevs sevs' spoofs spoofs' rels : List ℚ)
    (hfc0 : 0 ≤ fc) (hfc1 : fc ≤ 1)
    (hsev : List.Forall₂ (· ≤ ·) sevs sevs')
    (hs : ∀ x ∈ sevs, 0 ≤ x ∧ x ≤ 1) (hs' : ∀ x ∈ sevs', 0 ≤ x ∧ x ≤ 1)
    (hspoof : List.Forall₂ (· ≤ ·) spoofs spoofs')
    (hp : ∀ x ∈ spoofs, 0 ≤ x ∧ x ≤ 1) (hp' : ∀ x ∈ spoofs', 0 ≤ x ∧ x ≤ 1) :
    confidenceCore fc sevs' spoofs' rels ≤ confidenceCore fc sevs spoofs rels ∧
    0 ≤ confidenceCore fc sevs' spoofs' rels ∧
    confidenceCore fc sevs' spoofs' rels ≤ 1 := by
  have hbounds : ∀ f s p r, 0 ≤ confidenceCore f s p r ∧ confidenceCore f s p r ≤ 1 := by
    intro f s p r
    simp only [confidenceCore]
    constructor
    · exact le_max_left _ _
    · exact max_le (by norm_num) (min_le_left _ _)
  refine ⟨?_, (hbounds _ _ _ _).1, (hbounds _ _ _ _).2⟩
  simp only [confidenceCore]
  have hlen : sevs.length = sevs'.length := hsev.length_eq
  have hlenp : spoofs.length = spoofs'.length := hspoof.length_eq
  have hemp : sevs.isEmpty = sevs'.isEmpty := by
    cases hsev <;> rfl
  have hempp : spoofs.isEmpty = spoofs'.isEmpty := by
    cases hspoof <;> rfl
  -- step 1: the anomaly-adjusted confidence
  set c1 := if sevs.isEmpty then fc
    else fc * (1 - (listMax sevs * 0.3 + sevs.sum / sevs.length * 0.2) * 0.5) with hc1
  set c1' := if sevs'.isEmpty then fc
    else fc * (1 - (listMax sevs' * 0.3 + sevs'.sum / sevs'.length * 0.2) * 0.5) with hc1'
  have hstep1 : c1' ≤ c1 ∧ 0 ≤ c1 ∧ 0 ≤ c1' := by
    rw [hc1, hc1']
    by_cases he : sevs.isEmpty = true
    · rw [if_pos he, if_pos (hemp ▸ he)]
      exact ⟨le_refl _, hfc0, hfc0⟩
    · rw [if_neg he, if_neg (hemp ▸ he)]
      have hne' : ¬sevs'.isEmpty = true := hemp ▸ he
      have hf := anomaly_factor_bounds he hs
      have hf' := anomaly_factor_bounds hne' hs'
      have hmle := listMax_mono hsev
      have hsle := sum_mono hsev
      have hlpos : (0 : ℚ) < sevs.length := by
        cases sevs with
        | nil => simp at he
        | cons x xs => exact_mod_cast Nat.succ_pos xs.length
      have havg : sevs.sum / sevs.length ≤ sevs'.sum / sevs'.length := by
        rw [← hlen]
        exact div_le_div_of_nonneg_right hsle hlpos.le
      refine ⟨?_, ?_, ?_⟩
      · apply mul_le_mul_of_nonneg_left _ hfc0
        nlinarith
      · exact mul_nonneg hfc0 (by linarith [hf.1])
      · exact mul_nonneg hfc0 (by linarith [hf'.1])
  -- step 2: the spoofing-adjusted confidence
  set c2 := if spoofs.isEmpty then c1 else c1 * (1 - listMax spoofs * 0.5) with hc2
  set c2' := if spoofs'.isEmpty then c1'
    else c1' * (1 - listMax spoofs' * 0.5) with hc2'
  have hstep2 : c2' ≤ c2 := by
    rw [hc2, hc2']
    by_cases he : spoofs.isEmpty = true
    · rw [if_pos he, if_pos (hempp ▸ he)]
      exact hstep1.1
    · rw [if_neg he, if_neg (hempp ▸ he)]
      have hm := listMax_bounds hp
      have hm' := listMax_bounds hp'
      have hmle := listMax_mono hspoof
      have hg' : 0 ≤ 1 - listMax spoofs' * 0.5 := by nlinarith [hm'.2]
      have hg : 1 - listMax spoofs' * 0.5 ≤ 1 - listMax spoofs * 0.5 := by nlinarith
      exact mul_le_mul hstep1.1 hg hg' hstep1.2.1
  -- step 3: reliability averaging and clamping are monotone
  by_cases hr : rels.isEmpty = true
  · rw [if_pos hr, if_pos hr]
    exact max_le_max (le_refl _) (min_le_min (le_refl _) hstep2)
  · rw [if_neg hr, if_neg hr]
    have : (c2' + rels.sum / rels.length) / 2 ≤ (c2 + rels.sum / rels.length) / 2 := by
      linarith
    exact max_le_max (le_refl _) (min_le_min (le_refl _) this)

/-- C6 witness at concrete inputs. -/
theorem confidenceCore_monotone_and_bounded_witness :
    confidenceCore (1/2) [3/4] [1/2] [1/2] ≤ confidenceCore (1/2) [1/4] [1/3] [1/2] ∧
    0 ≤ confidenceCore (1/2) [3/4] [1/2] [1/2] ∧
    confidenceCore (1/2) [3/4] [1/2] [1/2] ≤ 1 :=
  confidenceCore_monotone_and_bounded (1/2) [1/4] [3/4] [1/3] [1/2] [1/2]
    (by norm_num) (by norm_num)
    (List.Forall₂.cons (by norm_num) List.Forall₂.nil)
    (by intro x hx; simp at hx; subst hx; norm_num)
    (by intro x hx; simp at hx; subst hx; norm_num)
    (List.Forall₂.cons (by norm_num) List.Forall₂.nil)
    (by intro x hx; simp at hx; subst hx; norm_num)
    (by intro x hx; simp at hx; subst hx; norm_num)

/-- Keys absent from a snapshot are absent from its quality map. -/
theorem quality_lookup_none (raw : Snapshot) (k : String)
    (h : k ∉ raw.map Prod.fst) :
    (calculate_quality_scores raw).lookup k = none := by
  induction raw with
  | nil => rfl
  | cons e rest ih =>
    obtain ⟨k', v'⟩ := e
    simp only [List.map_cons, List.mem_cons, not_or] at h
    have hk : (k == k') = false := beq_false_of_ne h.1
    cases v' with
    | vnone => exact ih h.2
    | obj r => simp only [calculate_quality_scores, List.lookup, hk]; exact ih h.2
    | num q => simp only [calculate_quality_scores, List.lookup, hk]; exact ih h.2
    | str s => simp only [calculate_quality_scores, List.lookup, hk]; exact ih h.2

/-- Full characterization of a quality-map lookup over a
unique-keyed snapshot. -/
theorem quality_lookup_char (raw : Snapshot) (k : String)
    (hnd : (raw.map Prod.fst).Nodup) :
    (calculate_quality_scores raw).lookup k =
      match raw.lookup k with
      | some (SVal.obj r) => some (min 1 ((r.length : ℚ) / 10))
      | some SVal.vnone => none
      | some _ => some 0.5
      | none => none := by
  induction raw with
  | nil => rfl
  | cons e rest ih =>
    obtain ⟨k', v'⟩ := e
    simp only [List.map_cons, List.nodup_cons] at hnd
    by_cases hk : k = k'
    · subst hk
      have hkk : (k == k) = true := beq_self_eq_true k
      cases v' with
      | vnone =>
        simp only [calculate_quality_scores, List.lookup, hkk]
        exact quality_lookup_none rest k hnd.1
      | obj r => simp only [calculate_quality_scores, List.lookup, hkk]
      | num q => simp only [calculate_quality_scores, List.lookup, hkk]
      | str s => simp only [calculate_quality_scores, List.lookup, hkk]
    · have hkk : (k == k') = false := beq_false_of_ne hk
      cases v' with
      | vnone =>
        simp only [calculate_quality_scores, List.lookup, hkk]
        exact ih hnd.2
      | obj r =>
        simp only [calculate_quality_scores, List.lookup, hkk]
        exact ih hnd.2
      | num q =>
        simp only [calculate_quality_scores, List.lookup, hkk]
        exact ih hnd.2
      | str s =>
        simp only [calculate_quality_scores, List.lookup, hkk]
        exact ih hnd.2

/-- C7: over a unique-keyed snapshot, every present dict-valued sensor
gets quality `min(1, field_count/10)`, and sensors that are absent (or
bound to `None`) are absent from the quality map. -/
theorem quality_scores_spec :
    (∀ (raw : Snapshot) (k : String) (r : Reading),
      (raw.map Prod.fst).Nodup →
      raw.lookup k = some (SVal.obj r) →
      (calculate_quality_scores raw).lookup k =
        some (min 1 ((r.length : ℚ) / 10))) ∧
    (∀ (raw : Snapshot) (k : String),
      (raw.map Prod.fst).Nodup →
      (raw.lookup k = none ∨ raw.lookup k = some SVal.vnone) →
      (calculate_quality_scores raw).lookup k = none) := by
  constructor
  · intro raw k r hnd hlk
    rw [quality_lookup_char raw k hnd, hlk]
  · intro raw k hnd hlk
    rcases hlk with h | h <;> rw [quality_lookup_char raw k hnd, h]

/-- C7 witness on a concrete snapshot. -/
theorem quality_scores_spec_witness :
    (calculate_quality_scores
        [("gps", SVal.obj [("latitude", Val.num 1), ("longitude", Val.num 2),
                           ("speed", Val.num 3)]),
         ("ais", SVal.vnone)]).lookup "gps" =
      some (min 1 ((([("latitude", Val.num 1), ("longitude", Val.num 2),
                      ("speed", Val.num 3)] : Reading).length : ℚ) / 10)) ∧
    (calculate_quality_scores
        [("gps", SVal.obj [("latitude", Val.num 1), ("longitude", Val.num 2),
                           ("speed", Val.num 3)]),
         ("ais", SVal.vnone)]).lookup "ais" = none :=
  ⟨quality_scores_spec.1 _ "gps"
      [("latitude", Val.num 1), ("longitude", Val.num 2), ("speed", Val.num 3)]
      (by simp) (by simp [List.lookup]),
   quality_scores_spec.2 _ "ais" (by simp) (Or.inr (by simp [List.lookup]))⟩

/-- Mapping values at one key leaves lookups at other keys unchanged. -/
theorem lookup_map_keyed (f : Uncertainty → Uncertainty) (key other : String)
    (hne : (other == key) = false) (us : List (String × Uncertainty)) :
    ((us.map (fun e => if e.1 = key then (e.1, f e.2) else e)).lookup other) =
      us.lookup other := by
  induction us with
  | nil => rfl
  | cons e rest ih =>
    obtain ⟨k, u⟩ := e
    rw [List.map_cons]
    by_cases hk : k = key
    · have h1 : (if (k, u).1 = key then ((k, u).1, f (k, u).2) else (k, u)) =
          ((k, f u) : String × Uncertainty) := by
        simp [hk]
      rw [h1, List.lookup_cons, List.lookup_cons]
      have hne' : (other == k) = false := by rw [hk]; exact hne
      rw [hne']
      exact ih
    · have h1 : (if (k, u).1 = key then ((k, u).1, f (k, u).2) else (k, u)) =
          ((k, u) : String × Uncertainty) := by
        simp [hk]
      rw [h1, List.lookup_cons, List.lookup_cons]
      cases hok : other == k
      · exact ih
      · rfl

/-- Mapping a reliability-only update over the map preserves every
looked-up standard deviation. -/
theorem lookup_map_std (f : Uncertainty → Uncertainty)
    (hf : ∀ u, (f u).std_deviation = u.std_deviation)
    (us : List (String × Uncertainty)) (key : String) :
    (((us.map (fun e => (e.1, f e.2))).lookup key).map
        (fun u => u.std_deviation)) =
      ((us.lookup key).map (fun u => u.std_deviation)) := by
  induction us with
  | nil => rfl
  | cons e rest ih =>
    obtain ⟨k, u⟩ := e
    simp only [List.map_cons, List.lookup_cons]
    cases hok : (key == k) with
    | true => simp [hok, hf]
    | false => simpa [hok] using ih

/-- No anomaly kind's value string mentions "position". -/
theorem anomalyType_no_position (t : AnomalyType) :
    strContains (anomalyTypeValue t) "position" = false := by
  cases t <;> rfl

/-- A single `_adjust_for_anomalies` pass preserves the position σ. -/
theorem adjustOne_position_std (impact : ℚ) (a : Anomaly)
    (us : List (String × Uncertainty)) :
    (((adjustOne impact a us).lookup "position").map
        (fun u => u.std_deviation)) =
      ((us.lookup "position").map (fun u => u.std_deviation)) := by
  simp only [adjustOne]
  rw [anomalyType_no_position a.anomaly_type]
  simp only [Bool.false_eq_true, if_false]
  by_cases hsp : strContains (anomalyTypeValue a.anomaly_type) "speed" = true
  · rw [if_pos hsp]
    by_cases hse : strContains (anomalyTypeValue a.anomaly_type) "sensor" = true
    · rw [if_pos hse, lookup_map_std (cutReliability a.severity) (fun u => rfl),
        lookup_map_keyed (inflateUnc impact a.severity) _ _ (by decide)]
    · rw [if_neg hse,
        lookup_map_keyed (inflateUnc impact a.severity) _ _ (by decide)]
  · rw [if_neg hsp]
    by_cases hse : strContains (anomalyTypeValue a.anomaly_type) "sensor" = true
    · rw [if_pos hse, lookup_map_std (cutReliability a.severity) (fun u => rfl)]
    · rw [if_neg hse]

/-- The whole anomaly adjustment preserves the position σ. -/
theorem adjust_position_std (anomalies : List Anomaly) :
    ∀ (impact : ℚ) (us : List (String × Uncertainty)),
    (((anomalies.foldl (fun acc a => adjustOne impact a acc) us).lookup
        "position").map (fun u => u.std_deviation)) =
      ((us.lookup "position").map (fun u => u.std_deviation)) := by
  induction anomalies with
  | nil => intro impact us; rfl
  | cons a rest ih =>
    intro impact us
    simp only [List.foldl_cons]
    rw [ih, adjustOne_position_std]

/-- C10: no `AnomalyType` value string contains "position", so the
anomaly-adjustment step never inflates the position uncertainty's
standard deviation: after `calculate` the position σ equals its
pre-adjustment value (the one computed with no anomalies). -/
theorem position_std_frame :
    (∀ t : AnomalyType,
      strContains (anomalyTypeValue t) "position" = false) ∧
    (∀ (fused : FusedData) (raw : Snapshot) (anomalies : List Anomaly),
      (((uncertainty_calculate fused raw anomalies).lookup "position").map
          (fun u => u.std_deviation)) =
        (((uncertainty_calculate fused raw []).lookup "position").map
          (fun u => u.std_deviation))) := by
  refine ⟨anomalyType_no_position, ?_⟩
  intro fused raw anomalies
  simp only [uncertainty_calculate]
  by_cases he : anomalies.isEmpty = true
  · rw [if_pos he]
    simp
  · rw [if_neg he]
    simp only [adjust_for_anomalies]
    rw [if_neg he, adjust_position_std]
    simp

/-- `insertAlert` inserts exactly its element. -/
theorem insertAlert_perm (x : Alert) (l : List Alert) :
    (insertAlert x l).Perm (x :: l) := by
  induction l with
  | nil => exact List.Perm.refl _
  | cons y ys ih =>
    unfold insertAlert
    by_cases hlt : level_priority x.level < level_priority y.level
    · rw [if_pos hlt]
      exact (ih.cons y).trans (List.Perm.swap x y ys)
    · rw [if_neg hlt]

/-- The stable sort is a permutation of its input. -/
theorem sortAlertsDesc_perm (l : List Alert) : (sortAlertsDesc l).Perm l := by
  induction l with
  | nil => exact List.Perm.refl _
  | cons x xs ih =>
    exact (insertAlert_perm x (sortAlertsDesc xs)).trans (ih.cons x)

/-- `insertAlert` preserves descending-priority pairwise order. -/
theorem insertAlert_pairwise (x : Alert) (l : List Alert)
    (hl : l.Pairwise (fun a b => level_priority b.level ≤ level_priority a.level)) :
    (insertAlert x l).Pairwise
      (fun a b => level_priority b.level ≤ level_priority a.level) := by
  induction l with
  | nil => exact List.pairwise_singleton _ _
  | cons y ys ih =>
    rw [List.pairwise_cons] at hl
    unfold insertAlert
    by_cases hlt : level_priority x.level < level_priority y.level
    · rw [if_pos hlt]
      rw [List.pairwise_cons]
      refine ⟨?_, ih hl.2⟩
      intro z hz
      have hz' := (insertAlert_perm x ys).mem_iff.mp hz
      rcases List.mem_cons.mp hz' with rfl | hz''
      · exact le_of_lt hlt
      · exact hl.1 z hz''
    · rw [if_neg hlt]
      rw [List.pairwise_cons]
      refine ⟨?_, List.pairwise_cons.mpr hl⟩
      intro z hz
      rcases List.mem_cons.mp hz with rfl | hz'
      · exact le_of_not_lt hlt
      · exact le_trans (hl.1 z hz') (le_of_not_lt hlt)

/-- The stable sort produces a descending-priority list. -/
theorem sortAlertsDesc_sorted (l : List Alert) :
    (sortAlertsDesc l).Pairwise
      (fun a b => level_priority b.level ≤ level_priority a.level) := by
  induction l with
  | nil => exact List.Pairwise.nil
  | cons x xs ih => exact insertAlert_pairwise x _ ih

/-- Stability of `insertAlert` through a per-level filter: the element
lands in front of its own level class and outside every other class. -/
theorem filter_insertAlert (lv : AlertLevel) (x : Alert) (l : List Alert) :
    (insertAlert x l).filter (fun a => a.level == lv) =
      if x.level = lv then x :: l.filter (fun a => a.level == lv)
      else l.filter (fun a => a.level == lv) := by
  induction l with
  | nil =>
    by_cases hx : x.level = lv
    · have hxb : (x.level == lv) = true := by simp [hx]
      simp [insertAlert, List.filter_cons, hxb, hx]
    · have hxb : (x.level == lv) = false := beq_false_of_ne hx
      simp [insertAlert, List.filter_cons, hxb, hx]
  | cons y ys ih =>
    unfold insertAlert
    by_cases hlt : level_priority x.level < level_priority y.level
    · rw [if_pos hlt]
      by_cases hy : y.level = lv
      · have hyb : (y.level == lv) = true := by simp [hy]
        by_cases hx : x.level = lv
        · exfalso
          have hex : x.level = y.level := hx.trans hy.symm
          rw [hex] at hlt
          exact lt_irrefl _ hlt
        · simp [List.filter_cons, hyb, ih, hx]
      · have hyb : (y.level == lv) = false := beq_false_of_ne hy
        simp [List.filter_cons, hyb, ih]
    · rw [if_neg hlt]
      by_cases hx : x.level = lv
      · have hxb : (x.level == lv) = true := by simp [hx]
        simp [List.filter_cons, hxb, hx]
      · have hxb : (x.level == lv) = false := beq_false_of_ne hx
        simp [List.filter_cons, hxb, hx]

/-- The stable sort keeps each level class in input order. -/
theorem sortAlertsDesc_filter (lv : AlertLevel) (l : List Alert) :
    (sortAlertsDesc l).filter (fun a => a.level == lv) =
      l.filter (fun a => a.level == lv) := by
  induction l with
  | nil => rfl
  | cons x xs ih =>
    show (insertAlert x (sortAlertsDesc xs)).filter _ = _
    rw [filter_insertAlert]
    by_cases hx : x.level = lv
    · have hxb : (x.level == lv) = true := by simp [hx]
      simp [List.filter_cons, hx, hxb, ih]
    · have hxb : (x.level == lv) = false := beq_false_of_ne hx
      simp [List.filter_cons, hx, hxb, ih]

/-- C8: one batch's final alert list is sorted by descending level
priority; within each level the relative insertion order (spoofing
first, then anomalies, then the low-confidence warning) is preserved;
and the low-confidence warning appears exactly when the overall
confidence is below 0.5. -/
theorem generate_alerts_spec (spoofing_alerts : List SpoofingAlert)
    (anomalies : List Anomaly) (uncerts : List (String × Uncertainty))
    (conf : ℚ) :
    (generate_alerts spoofing_alerts anomalies uncerts conf).Pairwise
      (fun a b => level_priority b.level ≤ level_priority a.level) ∧
    (∀ lv : AlertLevel,
      (generate_alerts spoofing_alerts anomalies uncerts conf).filter
          (fun a => a.level == lv) =
        (spoofing_alerts.map (fun s =>
            (⟨s.alert_id, s.to_alert_level, "spoofing_detector"⟩ : Alert)) ++
         anomalies.map (fun a =>
            (⟨a.anomaly_id, a.to_alert_level, "anomaly_detector"⟩ : Alert)) ++
         (if conf < 0.5 then
            [(⟨"low_conf", AlertLevel.warning, "situation_awareness"⟩ : Alert)]
          else [])).filter (fun a => a.level == lv)) ∧
    ((∃ a ∈ generate_alerts spoofing_alerts anomalies uncerts conf,
        a.source = "situation_awareness") ↔ conf < 0.5) := by
  refine ⟨sortAlertsDesc_sorted _, fun lv => sortAlertsDesc_filter lv _, ?_⟩
  unfold generate_alerts
  constructor
  · rintro ⟨a, ha, hsrc⟩
    have ha' := (sortAlertsDesc_perm _).mem_iff.mp ha
    rw [List.mem_append, List.mem_append] at ha'
    rcases ha' with (h | h) | h
    · obtain ⟨s, _, rfl⟩ := List.mem_map.mp h
      simp at hsrc
    · obtain ⟨an, _, rfl⟩ := List.mem_map.mp h
      simp at hsrc
    · by_contra hc
      rw [if_neg hc] at h
      exact absurd h (List.not_mem_nil a)
  · intro hc
    refine ⟨⟨"low_conf", AlertLevel.warning, "situation_awareness"⟩, ?_, rfl⟩
    apply (sortAlertsDesc_perm _).mem_iff.mpr
    rw [List.mem_append]
    exact Or.inr (by rw [if_pos hc]; exact List.mem_singleton_self _)

/-- `pushBounded` keeps the cap and evicts from the front. -/
theorem pushBounded_spec {α : Type} (cap : ℕ) (l : List α) (x : α)
    (h : l.length ≤ cap) :
    pushBounded cap l x = (l ++ [x]).drop (l.length + 1 - cap) ∧
    (pushBounded cap l x).length ≤ cap := by
  unfold pushBounded
  rcases eq_or_lt_of_le h with heq | hlt
  · have hcond : cap < (l ++ [x]).length := by
      simp [heq]
    rw [if_pos hcond]
    constructor
    · rw [← heq, Nat.add_sub_cancel_left, ← List.drop_one]
    · have : (l ++ [x]).tail.length = l.length := by
        simp
      rw [this, heq]
  · have hcond : ¬cap < (l ++ [x]).length := by
      simp only [List.length_append, List.length_singleton]
      omega
    rw [if_neg hcond]
    constructor
    · rw [Nat.sub_eq_zero_of_le (by omega), List.drop_zero]
    · simp only [List.length_append, List.length_singleton]
      omega

/-- GPS spoofing detection never touches the incident log. -/
theorem gps_state_incidents (hav : ℚ → ℚ → ℚ → ℚ → ℚ) (st : SpoofState)
    (raw : Snapshot) (now : ℚ) :
    (detect_gps_spoofing hav st raw now).2.spoofing_incidents =
      st.spoofing_incidents := by
  unfold detect_gps_spoofing
  split
  · rfl
  · split <;> rfl

/-- AIS spoofing detection never touches the incident log. -/
theorem ais_state_incidents (hav : ℚ → ℚ → ℚ → ℚ → ℚ) (st : SpoofState)
    (raw : Snapshot) :
    (detect_ais_spoofing hav st raw).2.spoofing_incidents =
      st.spoofing_incidents := by
  unfold detect_ais_spoofing
  split
  · rfl
  · repeat' split
    all_goals rfl

/-- C9: the anomaly detector's three rolling histories stay capped at
30 samples with the oldest evicted first after every `detect`, and the
spoofing detector's incident log stays capped at 100 with the oldest
evicted first after every `detect`. -/
theorem history_bounds :
    (∀ (hav : ℚ → ℚ → ℚ → ℚ → ℚ) (st : AnomState) (fused : FusedData)
        (raw : Snapshot) (now : ℚ),
      st.speed_history.length ≤ 30 →
      st.course_history.length ≤ 30 →
      st.position_history.length ≤ 30 →
      ((anomaly_detect hav st fused raw now).2.speed_history =
          (st.speed_history ++ [fused.vessel_state.speed]).drop
            (st.speed_history.length + 1 - 30) ∧
        (anomaly_detect hav st fused raw now).2.speed_history.length ≤ 30) ∧
      ((anomaly_detect hav st fused raw now).2.course_history =
          (st.course_history ++ [fused.vessel_state.course]).drop
            (st.course_history.length + 1 - 30) ∧
        (anomaly_detect hav st fused raw now).2.course_history.length ≤ 30) ∧
      ((anomaly_detect hav st fused raw now).2.position_history =
          (st.position_history ++
            [(fused.vessel_state.position.1, fused.vessel_state.position.2, now)]).drop
            (st.position_history.length + 1 - 30) ∧
        (anomaly_detect hav st fused raw now).2.position_history.length ≤ 30)) ∧
    (∀ (hav : ℚ → ℚ → ℚ → ℚ → ℚ) (st : SpoofState) (raw : Snapshot) (now : ℚ),
      st.spoofing_incidents.length ≤ 100 →
      (spoofing_detect hav st raw now).2.spoofing_incidents.length ≤ 100 ∧
      ((spoofing_detect hav st raw now).2.spoofing_incidents =
          st.spoofing_incidents ∨
        ∃ inc : Incident,
          (spoofing_detect hav st raw now).2.spoofing_incidents =
            (st.spoofing_incidents ++ [inc]).drop
              (st.spoofing_incidents.length + 1 - 100))) := by
  constructor
  · intro hav st fused raw now hs hc hp
    have hst : (anomaly_detect hav st fused raw now).2 =
        update_history st fused.vessel_state now := rfl
    rw [hst]
    unfold update_history
    exact ⟨pushBounded_spec 30 _ _ hs, pushBounded_spec 30 _ _ hc,
      pushBounded_spec 30 _ _ hp⟩
  · intro hav st raw now hi
    rcases hg : detect_gps_spoofing hav st raw now with ⟨ga, st1⟩
    rcases ha : detect_ais_spoofing hav st1 raw with ⟨aa, st2⟩
    have h1 : st1.spoofing_incidents = st.spoofing_incidents := by
      have h := gps_state_incidents hav st raw now
      rw [hg] at h
      exact h
    have h2 : st2.spoofing_incidents = st.spoofing_incidents := by
      have h := ais_state_incidents hav st1 raw
      rw [ha] at h
      rw [h, h1]
    have hst : (spoofing_detect hav st raw now).2 =
        (let alerts := ga ++ aa ++ detect_multi_sensor_spoofing hav raw ++
          detect_time_manipulation raw now
        if alerts.isEmpty then st2 else log_spoofing_incident st2 alerts) := by
      unfold spoofing_detect
      simp only [hg, ha]
    rw [hst]
    set alerts := ga ++ aa ++ detect_multi_sensor_spoofing hav raw ++
      detect_time_manipulation raw now with halerts
    by_cases he : alerts.isEmpty = true
    · rw [if_pos he, h2]
      exact ⟨hi, Or.inl rfl⟩
    · rw [if_neg he]
      have hlog : (log_spoofing_incident st2 alerts).spoofing_incidents =
          pushBounded 100 st2.spoofing_incidents
            ⟨alerts.length, alerts.map (fun a => a.spoofing_type),
             listMax (alerts.map (fun a => a.confidence))⟩ := rfl
      rw [hlog, h2]
      constructor
      · exact (pushBounded_spec 100 st.spoofing_incidents _ hi).2
      · exact Or.inr ⟨⟨alerts.length, alerts.map (fun a => a.spoofing_type),
          listMax (alerts.map (fun a => a.confidence))⟩,
          (pushBounded_spec 100 st.spoofing_incidents _ hi).1⟩

/-- C9 witness at a concrete call (fresh detectors, empty snapshot). -/
theorem history_bounds_witness :
    ((anomaly_detect (fun _ _ _ _ => 0) initAnomState
        ⟨⟨(0, 0), 0, 0, 0, 0⟩, [], ⟨none, none, none, "good"⟩, [], 0⟩
        [] 0).2.speed_history =
      (([] : List ℚ) ++ [0]).drop (List.length ([] : List ℚ) + 1 - 30) ∧
      (anomaly_detect (fun _ _ _ _ => 0) initAnomState
        ⟨⟨(0, 0), 0, 0, 0, 0⟩, [], ⟨none, none, none, "good"⟩, [], 0⟩
        [] 0).2.speed_history.length ≤ 30) ∧
    ((spoofing_detect (fun _ _ _ _ => 0) initSpoofState [] 0).2.spoofing_incidents.length ≤ 100) := by
  refine ⟨((history_bounds.1 (fun _ _ _ _ => 0) initAnomState
      ⟨⟨(0, 0), 0, 0, 0, 0⟩, [], ⟨none, none, none, "good"⟩, [], 0⟩ [] 0
      (by simp [initAnomState]) (by simp [initAnomState])
      (by simp [initAnomState])).1), ?_⟩
  exact (history_bounds.2 (fun _ _ _ _ => 0) initSpoofState [] 0
    (by simp [initSpoofState])).1

/-- GPS detection always refreshes the position tracker when
coordinates are present, alert or not. -/
theorem gps_update (hav : ℚ → ℚ → ℚ → ℚ → ℚ) (st : SpoofState)
    (raw : Snapshot) (now : ℚ) (gps : Reading) (lat lon : ℚ)
    (hg : getReading raw "gps" = some gps)
    (hlat : getNum gps "latitude" = some lat)
    (hlon : getNum gps "longitude" = some lon) :
    (detect_gps_spoofing hav st raw now).2 =
      { st with previous_gps_position := some (lat, lon),
                last_update_time := some now } := by
  unfold detect_gps_spoofing
  simp only [hg, hlat, hlon]

/-- A 2000 m jump with 5 s elapsed takes the position-jump branch: the
result is exactly the one position-jump alert (the impossible-speed
check is its `elif`). -/
theorem gps_jump_alerts (hav : ℚ → ℚ → ℚ → ℚ → ℚ) (st : SpoofState)
    (raw : Snapshot) (now : ℚ) (gps : Reading) (lat lon plat plon t : ℚ)
    (hg : getReading raw "gps" = some gps)
    (hlat : getNum gps "latitude" = some lat)
    (hlon : getNum gps "longitude" = some lon)
    (hprev : st.previous_gps_position = some (plat, plon))
    (hlast : st.last_update_time = some t)
    (hdist : hav plat plon lat lon = 2000)
    (htime : now - t = 5) :
    (detect_gps_spoofing hav st raw now).1 =
      [⟨"gps_spoof", SpoofingType.gps_spoofing, min 1 (2000 / 5000), ["gps"]⟩] := by
  unfold detect_gps_spoofing
  simp only [hg, hlat, hlon, hprev, hlast, hdist, htime]
  norm_num

/-- AIS detection leaves the GPS trackers untouched. -/
theorem ais_preserves_gps (hav : ℚ → ℚ → ℚ → ℚ → ℚ) (st : SpoofState)
    (raw : Snapshot) :
    (detect_ais_spoofing hav st raw).2.previous_gps_position =
        st.previous_gps_position ∧
    (detect_ais_spoofing hav st raw).2.last_update_time =
        st.last_update_time := by
  unfold detect_ais_spoofing
  split
  · exact ⟨rfl, rfl⟩
  · repeat' split
    all_goals exact ⟨rfl, rfl⟩

/-- After a full `detect`, the GPS trackers are the ones set by the GPS
phase. -/
theorem spoof_detect_gps_state (hav : ℚ → ℚ → ℚ → ℚ → ℚ) (st : SpoofState)
    (raw : Snapshot) (now : ℚ) :
    (spoofing_detect hav st raw now).2.previous_gps_position =
      (detect_gps_spoofing hav st raw now).2.previous_gps_position ∧
    (spoofing_detect hav st raw now).2.last_update_time =
      (detect_gps_spoofing hav st raw now).2.last_update_time := by
  rcases hg : detect_gps_spoofing hav st raw now with ⟨ga, st1⟩
  rcases ha : detect_ais_spoofing hav st1 raw with ⟨aa, st2⟩
  have hp := ais_preserves_gps hav st1 raw
  rw [ha] at hp
  unfold spoofing_detect
  simp only [hg, ha]
  by_cases he : (ga ++ aa ++ detect_multi_sensor_spoofing hav raw ++
      detect_time_manipulation raw now).isEmpty = true
  · rw [if_pos he]
    exact hp
  · rw [if_neg he]
    exact hp

/-- A full `detect` returns the four phases' alerts concatenated in
source order. -/
theorem spoof_detect_alerts (hav : ℚ → ℚ → ℚ → ℚ → ℚ) (st : SpoofState)
    (raw : Snapshot) (now : ℚ) :
    (spoofing_detect hav st raw now).1 =
      (detect_gps_spoofing hav st raw now).1 ++
      (detect_ais_spoofing hav (detect_gps_spoofing hav st raw now).2 raw).1 ++
      detect_multi_sensor_spoofing hav raw ++
      detect_time_manipulation raw now := by
  rcases hg : detect_gps_spoofing hav st raw now with ⟨ga, st1⟩
  rcases ha : detect_ais_spoofing hav st1 raw with ⟨aa, st2⟩
  unfold spoofing_detect
  simp only [hg, ha]

/-- Every AIS-phase alert is an "ais_spoof" or "ais_jump" alert. -/
theorem ais_alert_ids (hav : ℚ → ℚ → ℚ → ℚ → ℚ) (st : SpoofState)
    (raw : Snapshot) (a : SpoofingAlert)
    (ha : a ∈ (detect_ais_spoofing hav st raw).1) :
    a.alert_id = "ais_spoof" ∨ a.alert_id = "ais_jump" := by
  unfold detect_ais_spoofing at ha
  repeat' split at ha
  all_goals simp_all [List.mem_append]
  all_goals rcases ha with rfl | ⟨-, rfl⟩ <;> simp

/-- Every multi-sensor-phase alert is a "multi_spoof" alert. -/
theorem multi_alert_ids (hav : ℚ → ℚ → ℚ → ℚ → ℚ) (raw : Snapshot)
    (a : SpoofingAlert) (ha : a ∈ detect_multi_sensor_spoofing hav raw) :
    a.alert_id = "multi_spoof" := by
  unfold detect_multi_sensor_spoofing at ha
  repeat' split at ha
  all_goals simp_all

/-- Every time-phase alert is a "time_spoof" alert. -/
theorem time_alert_ids (raw : Snapshot) (now : ℚ) (a : SpoofingAlert)
    (ha : a ∈ detect_time_manipulation raw now) :
    a.alert_id = "time_spoof" := by
  unfold detect_time_manipulation at ha
  repeat' split at ha
  all_goals simp_all

/-- Auxiliary form of the two-call GPS-jump property, shared by the
claim theorem and the counterexample below. -/
theorem gps_jump_two_call_aux (hav : ℚ → ℚ → ℚ → ℚ → ℚ) (st0 : SpoofState)
    (raw1 raw2 : Snapshot) (t1 t2 : ℚ) (gps1 gps2 : Reading)
    (lat1 lon1 lat2 lon2 : ℚ)
    (hg1 : getReading raw1 "gps" = some gps1)
    (hlat1 : getNum gps1 "latitude" = some lat1)
    (hlon1 : getNum gps1 "longitude" = some lon1)
    (hg2 : getReading raw2 "gps" = some gps2)
    (hlat2 : getNum gps2 "latitude" = some lat2)
    (hlon2 : getNum gps2 "longitude" = some lon2)
    (hdist : hav lat1 lon1 lat2 lon2 = 2000)
    (htime : t2 - t1 = 5) :
    (∃ a ∈ (spoofing_detect hav (spoofing_detect hav st0 raw1 t1).2 raw2 t2).1,
        a.alert_id = "gps_spoof") ∧
    (∀ a ∈ (spoofing_detect hav (spoofing_detect hav st0 raw1 t1).2 raw2 t2).1,
        a.alert_id ≠ "gps_speed") := by
  set st1 := (spoofing_detect hav st0 raw1 t1).2 with hst1
  have hprev : st1.previous_gps_position = some (lat1, lon1) := by
    rw [hst1, (spoof_detect_gps_state hav st0 raw1 t1).1,
      gps_update hav st0 raw1 t1 gps1 lat1 lon1 hg1 hlat1 hlon1]
  have hlast : st1.last_update_time = some t1 := by
    rw [hst1, (spoof_detect_gps_state hav st0 raw1 t1).2,
      gps_update hav st0 raw1 t1 gps1 lat1 lon1 hg1 hlat1 hlon1]
  have hgps2 : (detect_gps_spoofing hav st1 raw2 t2).1 =
      [⟨"gps_spoof", SpoofingType.gps_spoofing, min 1 (2000 / 5000), ["gps"]⟩] :=
    gps_jump_alerts hav st1 raw2 t2 gps2 lat2 lon2 lat1 lon1 t1
      hg2 hlat2 hlon2 hprev hlast hdist htime
  rw [spoof_detect_alerts hav st1 raw2 t2, hgps2]
  constructor
  · refine ⟨⟨"gps_spoof", SpoofingType.gps_spoofing, min 1 (2000 / 5000),
      ["gps"]⟩, ?_, rfl⟩
    simp [List.mem_append]
  · intro a ha hid
    simp only [List.mem_append, List.mem_singleton] at ha
    rcases ha with ((h | h) | h) | h
    · rw [h] at hid
      exact absurd hid (by decide)
    · rcases ais_alert_ids hav _ raw2 a h with h' | h' <;>
        rw [h'] at hid <;> exact absurd hid (by decide)
    · rw [multi_alert_ids hav raw2 a h] at hid
      exact absurd hid (by decide)
    · rw [time_alert_ids raw2 t2 a h] at hid
      exact absurd hid (by decide)

/-- C1 (amended): over two consecutive `detect` calls whose GPS
readings lie 2000 m apart with 5 s elapsed, the second batch contains
the GPS position-jump alert but NOT the impossible-speed alert — the
impossible-speed check is the `elif` of the position-jump check, so
the two can never fire together. -/
theorem gps_jump_two_call_spec (hav : ℚ → ℚ → ℚ → ℚ → ℚ) (st0 : SpoofState)
    (raw1 raw2 : Snapshot) (t1 t2 : ℚ) (gps1 gps2 : Reading)
    (lat1 lon1 lat2 lon2 : ℚ)
    (hg1 : getReading raw1 "gps" = some gps1)
    (hlat1 : getNum gps1 "latitude" = some lat1)
    (hlon1 : getNum gps1 "longitude" = some lon1)
    (hg2 : getReading raw2 "gps" = some gps2)
    (hlat2 : getNum gps2 "latitude" = some lat2)
    (hlon2 : getNum gps2 "longitude" = some lon2)
    (hdist : hav lat1 lon1 lat2 lon2 = 2000)
    (htime : t2 - t1 = 5) :
    (∃ a ∈ (spoofing_detect hav (spoofing_detect hav st0 raw1 t1).2 raw2 t2).1,
        a.alert_id = "gps_spoof") ∧
    (∀ a ∈ (spoofing_detect hav (spoofing_detect hav st0 raw1 t1).2 raw2 t2).1,
        a.alert_id ≠ "gps_speed") :=
  gps_jump_two_call_aux hav st0 raw1 raw2 t1 t2 gps1 gps2 lat1 lon1 lat2 lon2
    hg1 hlat1 hlon1 hg2 hlat2 hlon2 hdist htime

/-- C1 witness: concrete two-call run satisfying the hypotheses. -/
theorem gps_jump_two_call_spec_witness :
    (∃ a ∈ (spoofing_detect (fun _ _ _ _ => 2000)
        (spoofing_detect (fun _ _ _ _ => 2000) initSpoofState
          [("gps", SVal.obj [("latitude", Val.num 0), ("longitude", Val.num 0)])]
          0).2
        [("gps", SVal.obj [("latitude", Val.num 0), ("longitude", Val.num 0)])]
        5).1, a.alert_id = "gps_spoof") ∧
    (∀ a ∈ (spoofing_detect (fun _ _ _ _ => 2000)
        (spoofing_detect (fun _ _ _ _ => 2000) initSpoofState
          [("gps", SVal.obj [("latitude", Val.num 0), ("longitude", Val.num 0)])]
          0).2
        [("gps", SVal.obj [("latitude", Val.num 0), ("longitude", Val.num 0)])]
        5).1, a.alert_id ≠ "gps_speed") :=
  gps_jump_two_call_spec (fun _ _ _ _ => 2000) initSpoofState
    [("gps", SVal.obj [("latitude", Val.num 0), ("longitude", Val.num 0)])]
    [("gps", SVal.obj [("latitude", Val.num 0), ("longitude", Val.num 0)])]
    0 5
    [("latitude", Val.num 0), ("longitude", Val.num 0)]
    [("latitude", Val.num 0), ("longitude", Val.num 0)]
    0 0 0 0
    (by simp [getReading, List.lookup])
    (by simp [getNum, List.lookup])
    (by simp [getNum, List.lookup])
    (by simp [getReading, List.lookup])
    (by simp [getNum, List.lookup])
    (by simp [getNum, List.lookup])
    rfl (by norm_num)

/-- C1 counterexample: on the same concrete two-call run, the claim as
stated — both the position-jump and the impossible-speed alerts in one
batch — is false: no "gps_speed" alert is present. -/
theorem gps_jump_claim_counterexample :
    ¬ ((∃ a ∈ (spoofing_detect (fun _ _ _ _ => 2000)
          (spoofing_detect (fun _ _ _ _ => 2000) initSpoofState
            [("gps", SVal.obj [("latitude", Val.num 0), ("longitude", Val.num 0)])]
            0).2
          [("gps", SVal.obj [("latitude", Val.num 0), ("longitude", Val.num 0)])]
          5).1, a.alert_id = "gps_spoof") ∧
       (∃ a ∈ (spoofing_detect (fun _ _ _ _ => 2000)
          (spoofing_detect (fun _ _ _ _ => 2000) initSpoofState
            [("gps", SVal.obj [("latitude", Val.num 0), ("longitude", Val.num 0)])]
            0).2
          [("gps", SVal.obj [("latitude", Val.num 0), ("longitude", Val.num 0)])]
          5).1, a.alert_id = "gps_speed")) := by
  rintro ⟨-, a, ha, hid⟩
  have hnone := (gps_jump_two_call_aux (fun _ _ _ _ => 2000) initSpoofState
    [("gps", SVal.obj [("latitude", Val.num 0), ("longitude", Val.num 0)])]
    [("gps", SVal.obj [("latitude", Val.num 0), ("longitude", Val.num 0)])]
    0 5
    [("latitude", Val.num 0), ("longitude", Val.num 0)]
    [("latitude", Val.num 0), ("longitude", Val.num 0)]
    0 0 0 0
    (by simp [getReading, List.lookup])
    (by simp [getNum, List.lookup])
    (by simp [getNum, List.lookup])
    (by simp [getReading, List.lookup])
    (by simp [getNum, List.lookup])
    (by simp [getNum, List.lookup])
    rfl (by norm_num)).2
  exact hnone a ha hid

/-- The first `detect` on an empty snapshot (fresh histories) yields
exactly three sensor-degradation anomalies, one per critical sensor. -/
theorem anom_empty (hav : ℚ → ℚ → ℚ → ℚ → ℚ) (now : ℚ) (fused : FusedData)
    (ht : fused.targets = []) (hrot : fused.vessel_state.rate_of_turn = 0) :
    (anomaly_detect hav initAnomState fused [] now).1 =
      [⟨"sensor_deg", AnomalyType.sensor_degradation, 0.8, ["gps"], none⟩,
       ⟨"sensor_deg", AnomalyType.sensor_degradation, 0.8, ["ais"], none⟩,
       ⟨"sensor_deg", AnomalyType.sensor_degradation, 0.8, ["radar"], none⟩] := by
  unfold anomaly_detect
  rw [ht]
  simp only [detect_trajectory_deviation, detect_speed_anomaly,
    detect_sensor_mismatch, detect_collision_risk, detect_sudden_maneuver,
    detect_sensor_degradation, update_history, initAnomState, pushBounded]
  rw [hrot]
  norm_num [List.lookup]

/-- Reliabilities of the empty-snapshot uncertainty map after the three
degradation adjustments: sum `4 × 0.84³` over 8 parameters. -/
theorem uncert_empty_rels (fused : FusedData) (ht : fused.targets = []) :
    ((uncertainty_calculate fused []
      [⟨"sensor_deg", AnomalyType.sensor_degradation, 0.8, ["gps"], none⟩,
       ⟨"sensor_deg", AnomalyType.sensor_degradation, 0.8, ["ais"], none⟩,
       ⟨"sensor_deg", AnomalyType.sensor_degradation, 0.8, ["radar"], none⟩]).map
      (fun u => u.2.reliability)).sum = 9261 / 15625 * 4 ∧
    ((uncertainty_calculate fused []
      [⟨"sensor_deg", AnomalyType.sensor_degradation, 0.8, ["gps"], none⟩,
       ⟨"sensor_deg", AnomalyType.sensor_degradation, 0.8, ["ais"], none⟩,
       ⟨"sensor_deg", AnomalyType.sensor_degradation, 0.8, ["radar"], none⟩]).map
      (fun u => u.2.reliability)).length = 8 := by
  have hpos : strContains "sensor_degradation" "position" = false := by decide
  have hspd : strContains "sensor_degradation" "speed" = false := by decide
  have hsen : strContains "sensor_degradation" "sensor" = true := by decide
  constructor
  · simp only [uncertainty_calculate, adjust_for_anomalies, adjustOne,
      anomalyTypeValue, hpos, hspd, hsen, Bool.false_eq_true, if_false, if_true,
      List.isEmpty_cons, List.foldl_cons, List.foldl_nil,
      environmental_uncertainties, List.map_append, List.map_cons, List.map_nil,
      cutReliability, List.sum_cons, List.sum_nil]
    norm_num [calculate_position_uncertainty, positionMeasurements, sensorPresent,
      calculate_speed_uncertainty, speedMeasurements, countReliability,
      calculate_course_uncertainty, courseMeasurements,
      calculate_heading_uncertainty, calculate_target_uncertainty, ht, pooledStd]
  · simp only [uncertainty_calculate, adjust_for_anomalies, adjustOne,
      anomalyTypeValue, hpos, hspd, hsen, Bool.false_eq_true, if_false, if_true,
      List.isEmpty_cons, List.foldl_cons, List.foldl_nil,
      environmental_uncertainties, List.map_append, List.map_cons, List.map_nil,
      cutReliability, List.length_map, List.length_append, List.length_cons,
      List.length_nil]

/-- Complete evaluation of one empty-snapshot batch from a fresh
system, shared by the claim theorem and the counterexample below. -/
theorem process_empty_aux (hav : ℚ → ℚ → ℚ → ℚ → ℚ) (now : ℚ) :
    (process_sensor_data hav initSAState [] now).1.fused_data.fusion_confidence = 0 ∧
    (process_sensor_data hav initSAState [] now).1.fused_data.vessel_state.position = (0, 0) ∧
    (process_sensor_data hav initSAState [] now).1.fused_data.targets = [] ∧
    (process_sensor_data hav initSAState [] now).1.anomalies =
      [⟨"sensor_deg", AnomalyType.sensor_degradation, 0.8, ["gps"], none⟩,
       ⟨"sensor_deg", AnomalyType.sensor_degradation, 0.8, ["ais"], none⟩,
       ⟨"sensor_deg", AnomalyType.sensor_degradation, 0.8, ["radar"], none⟩] ∧
    (process_sensor_data hav initSAState [] now).1.spoofing_alerts = [] ∧
    (process_sensor_data hav initSAState [] now).1.overall_confidence = 9261 / 62500 := by
  have hfd : (process_sensor_data hav initSAState [] now).1.fused_data =
      (fuse hav initFusionState [] now).1 := rfl
  have hconf : (fuse hav initFusionState [] now).1.fusion_confidence = 0 := rfl
  have hpos : (fuse hav initFusionState [] now).1.vessel_state.position = (0, 0) := rfl
  have htg : (fuse hav initFusionState [] now).1.targets = [] := rfl
  have hrot : (fuse hav initFusionState [] now).1.vessel_state.rate_of_turn = 0 := rfl
  have hanom0 : (process_sensor_data hav initSAState [] now).1.anomalies =
      (anomaly_detect hav initAnomState
        (fuse hav initFusionState [] now).1 [] now).1 := rfl
  have ha3 := anom_empty hav now (fuse hav initFusionState [] now).1 htg hrot
  have hsp : (process_sensor_data hav initSAState [] now).1.spoofing_alerts = [] := rfl
  refine ⟨by rw [hfd, hconf], by rw [hfd, hpos], by rw [hfd, htg],
    by rw [hanom0, ha3], hsp, ?_⟩
  have hov : (process_sensor_data hav initSAState [] now).1.overall_confidence =
      calculate_overall_confidence (fuse hav initFusionState [] now).1
        (uncertainty_calculate (fuse hav initFusionState [] now).1 []
          (anomaly_detect hav initAnomState
            (fuse hav initFusionState [] now).1 [] now).1)
        (anomaly_detect hav initAnomState
          (fuse hav initFusionState [] now).1 [] now).1
        (spoofing_detect hav initSpoofState [] now).1 := rfl
  have hspoof : (spoofing_detect hav initSpoofState [] now).1 = [] := rfl
  rw [hov, ha3, hspoof]
  unfold calculate_overall_confidence
  rw [hconf]
  have hrels := uncert_empty_rels (fuse hav initFusionState [] now).1 htg
  simp only [confidenceCore, List.map_cons, List.map_nil, List.isEmpty_cons,
    List.isEmpty_nil, Bool.false_eq_true, if_false, if_true, zero_mul]
  have hne : ((uncertainty_calculate (fuse hav initFusionState [] now).1 []
      [⟨"sensor_deg", AnomalyType.sensor_degradation, 0.8, ["gps"], none⟩,
       ⟨"sensor_deg", AnomalyType.sensor_degradation, 0.8, ["ais"], none⟩,
       ⟨"sensor_deg", AnomalyType.sensor_degradation, 0.8, ["radar"], none⟩]).map
      (fun u => u.2.reliability)).isEmpty = false := by
    rcases h : (uncertainty_calculate (fuse hav initFusionState [] now).1 []
      [⟨"sensor_deg", AnomalyType.sensor_degradation, 0.8, ["gps"], none⟩,
       ⟨"sensor_deg", AnomalyType.sensor_degradation, 0.8, ["ais"], none⟩,
       ⟨"sensor_deg", AnomalyType.sensor_degradation, 0.8, ["radar"], none⟩]).map
      (fun u => u.2.reliability) with _ | _
    · rw [h] at hrels
      simp at hrels
    · rfl
  rw [hne]
  simp only [Bool.false_eq_true, if_false]
  rw [hrels.1, hrels.2]
  norm_num

/-- C2 (amended): processing an empty raw snapshot from a fresh system
yields fusion confidence 0, fused position (0,0), zero targets, and at
least three sensor-degradation anomalies (one each for gps, ais and
radar, at severity 0.8); the overall confidence is greater than or
equal to the fusion confidence (the reliability-averaging step raises
it to 9261/62500 ≈ 0.148, so the claimed `≤` direction fails). -/
theorem empty_snapshot_spec (hav : ℚ → ℚ → ℚ → ℚ → ℚ) (now : ℚ) :
    (process_sensor_data hav initSAState [] now).1.fused_data.fusion_confidence = 0 ∧
    (process_sensor_data hav initSAState [] now).1.fused_data.vessel_state.position = (0, 0) ∧
    (process_sensor_data hav initSAState [] now).1.fused_data.targets = [] ∧
    3 ≤ ((process_sensor_data hav initSAState [] now).1.anomalies.filter
      (fun a => a.anomaly_type == AnomalyType.sensor_degradation)).length ∧
    (∀ s ∈ (["gps", "ais", "radar"] : List String),
      ∃ a ∈ (process_sensor_data hav initSAState [] now).1.anomalies,
        a.anomaly_type = AnomalyType.sensor_degradation ∧ a.severity = 0.8 ∧
        a.affected_sensors = [s]) ∧
    (process_sensor_data hav initSAState [] now).1.fused_data.fusion_confidence ≤
      (process_sensor_data hav initSAState [] now).1.overall_confidence := by
  obtain ⟨h1, h2, h3, h4, h5, h6⟩ := process_empty_aux hav now
  refine ⟨h1, h2, h3, ?_, ?_, ?_⟩
  · rw [h4]
    simp [List.filter]
  · intro s hs
    rw [h4]
    simp only [List.mem_cons, List.not_mem_nil, or_false] at hs
    rcases hs with rfl | rfl | rfl
    · exact ⟨⟨"sensor_deg", AnomalyType.sensor_degradation, 0.8, ["gps"], none⟩,
        by simp, rfl, rfl, rfl⟩
    · exact ⟨⟨"sensor_deg", AnomalyType.sensor_degradation, 0.8, ["ais"], none⟩,
        by simp, rfl, rfl, rfl⟩
    · exact ⟨⟨"sensor_deg", AnomalyType.sensor_degradation, 0.8, ["radar"], none⟩,
        by simp, rfl, rfl, rfl⟩
  · rw [h1, h6]
    norm_num

/-- C2 counterexample: on a concrete empty-snapshot batch, the overall
confidence (9261/62500) is NOT less than or equal to the fusion
confidence (0): the claim's final conjunct fails as stated. -/
theorem empty_snapshot_claim_counterexample :
    ¬ ((process_sensor_data (fun _ _ _ _ => 0) initSAState [] 0).1.overall_confidence ≤
       (process_sensor_data (fun _ _ _ _ => 0) initSAState [] 0).1.fused_data.fusion_confidence) := by
  obtain ⟨h1, -, -, -, -, h6⟩ := process_empty_aux (fun _ _ _ _ => 0) 0
  rw [h1, h6]
  norm_num

end Maritime
